import Mathlib

/-!
# minidrive: session state machine, account store and path sandbox

A shallow embedding of the server side of `rvadovic/minidrive`:

* `shared/include/protocol/*.hpp`   : command, status and code constants, `Request`, `Response`;
* `shared/src/protocol/message.cpp` : `to_json`, `from_json`;
* `server/src/database.cpp`         : `Database` (`load`, `save`, `user_exists`, `validate_user`,
  `add_user`);
* `shared/src/filesystem/utils.cpp` : `fsutils` (`normalize`, `is_subpath`, `mkdir`, ...);
* `server/src/session.cpp`          : the handlers of `Session`, `handle_request`, and the
  framing (`write_response`, `read_header`, `read_body`); `client/src/client.cpp` : `send`.

The calls the program makes into `std::filesystem`, the stream library and libsodium are
fields of a record (`StdFs`), so every general theorem holds for every behaviour of those
libraries. `Tree` is one concrete, executable instance (a symlink-free in-memory tree) on
which the code is evaluated at concrete inputs.
-/

namespace MiniDrive

/-! ## `protocol/codes.hpp`, `protocol/statuses.hpp`, `protocol/commands.hpp` -/

namespace codes
def OK : Nat := 200
def ACCEPTED : Nat := 202
def BAD_REQUEST : Nat := 400
def UNAUTHORIZED : Nat := 401
def FORBIDDEN : Nat := 403
def NOT_FOUND : Nat := 404
def CONFLICT : Nat := 409
def PRECONDITION_FAILED : Nat := 412
def INTERNAL_SERVER_ERROR : Nat := 500
def SERVICE_UNAVAILABLE : Nat := 503
end codes

namespace statuses
def OK : String := "OK"
def ERROR : String := "ERROR"
def NEED_INPUT : String := "NEED_INPUT"
def AUTH : String := "AUTH"
def CONFLICT : String := "CONFLICT"
def BUSY : String := "BUSY"
def EXIT : String := "EXIT"
end statuses

namespace commands
def LOGIN : String := "LOGIN"
def UPLOAD : String := "UPLOAD"
def DOWNLOAD : String := "DOWNLOAD"
def LIST : String := "LIST"
def EXIT : String := "EXIT"
def DELETE : String := "DELETE"
def CD : String := "CD"
def MKDIR : String := "MKDIR"
def RMDIR : String := "RMDIR"
def MOVE : String := "MOVE"
def COPY : String := "COPY"
def SYNC : String := "SYNC"
def NEED_INPUT : String := "NEED_INPUT"
def AUTH : String := "AUTH"
end commands

/-! ## `protocol/message.hpp` -/

/-- The struct `protocol::Request`; `size` is a `uint32_t`. -/
structure Request where
  cmd : String
  first_argument : String
  second_argument : String
  size : Nat
  hash : String
deriving DecidableEq, Repr

/-- The struct `protocol::Response`; `code` is a `uint16_t`. -/
structure Response where
  status : String
  code : Nat
  message : String
  hash : String
deriving DecidableEq, Repr

/-! ## Abnormal termination -/

/-- The ways a call leaves by an exception or by undefined behaviour instead of returning. -/
inductive Fault where
  /-- A member call through a null `std::shared_ptr<Database>`. -/
  | null_handle
  /-- The users file does not parse, or has not the shape `load` reads. -/
  | json_error
  /-- A throwing `std::filesystem` overload reported an error. -/
  | fs_error
deriving DecidableEq, Repr

/-! ## JSON values (the part of `nlohmann::json` the program uses) -/

/-- A JSON value. Objects are key/value lists; `nlohmann::json` keeps them sorted by key. -/
inductive Json where
  | null
  | bool (b : Bool)
  | num (n : Int)
  | str (s : String)
  | arr (xs : List Json)
  | obj (kvs : List (String × Json))

/-- The value stored under key `k`, if any. -/
def Json.lookup (k : String) : List (String × Json) → Option Json
  | [] => none
  | (k', v) :: rest => if k' = k then some v else Json.lookup k rest

/-- The values a range-based `for` visits: the elements of an array, the mapped values of an
object, nothing for `null`, the value itself for a primitive. -/
def Json.items : Json → List Json
  | .null => []
  | .arr xs => xs
  | .obj kvs => kvs.map Prod.snd
  | j => [j]

/-- Subscript `j["users"]` on a mutable value: `null` turns into an object and a missing key
is inserted with value `null`; any other non-object throws. -/
def Json.users : Json → Except Fault Json
  | .null => .ok .null
  | .obj kvs => .ok ((Json.lookup "users" kvs).getD .null)
  | _ => .error .json_error

/-! ## `server/include/database.hpp`, `server/src/database.cpp` -/

/-- The struct `DatabaseEntry`. -/
structure DatabaseEntry where
  username : String
  password_hash : String
deriving DecidableEq, Repr

/-- What is found at `path_` (the file `users.json`). -/
inductive DbFile where
  /-- No file: `fs::exists(path_)` is false. -/
  | absent
  /-- A file of zero bytes. -/
  | blank
  /-- A file whose text does not parse as JSON. -/
  | garbled
  /-- A file holding the text of the JSON value `j`. -/
  | doc (j : Json)

/-- The class `Database`: the file at `path_` and the in-memory table `entries_`. -/
structure Database where
  file : DbFile
  entries_ : List DatabaseEntry

/-- The libsodium calls of `password.cpp`. `hash_password` fixes the salt drawn by one call
of `crypto_pwhash_str`. -/
structure Sodium where
  hash_password : String → String
  verify_password : String → String → Bool

/-- One iteration of the loop body of `Database::load`:
`DatabaseEntry{user["username"].get<std::string>(), user["password_hash"].get<std::string>()}`
read through a `const` reference. -/
def entry_of_json : Json → Except Fault DatabaseEntry
  | .obj kvs =>
    match Json.lookup "username" kvs, Json.lookup "password_hash" kvs with
    | some (.str u), some (.str h) => .ok { username := u, password_hash := h }
    | _, _ => .error .json_error
  | _ => .error .json_error

/-- The loop of `Database::load` pushing one entry per visited value. -/
def load_entries : List Json → List DatabaseEntry → Except Fault (List DatabaseEntry)
  | [], acc => .ok acc
  | user :: rest, acc =>
    match entry_of_json user with
    | .ok e => load_entries rest (acc ++ [e])
    | .error f => .error f

namespace Database

/-- `Database::load`. -/
def load (db : Database) : Except Fault Database :=
  match db.file with
  | .absent => .ok db
  | .blank => .ok { db with entries_ := [] }
  | .garbled => .error .json_error
  | .doc j =>
    match Json.users j with
    | .error f => .error f
    | .ok us =>
      match load_entries (Json.items us) [] with
      | .error f => .error f
      | .ok es => .ok { db with entries_ := es }

/-- The object `save` pushes for one entry. -/
def entry_to_json (e : DatabaseEntry) : Json :=
  .obj [("password_hash", .str e.password_hash), ("username", .str e.username)]

/-- `Database::save`: the document is written to `path_ + ".tmp"` and renamed over `path_`. -/
def save (db : Database) : Database :=
  { db with file := .doc (.obj [("users", .arr (db.entries_.map entry_to_json))]) }

/-- The constructor `Database::Database(path)`: an empty table, then `save()`. -/
def create (file : DbFile) : Database :=
  save { file := file, entries_ := [] }

/-- `Database::user_exists`. -/
def user_exists (db : Database) (username : String) : Except Fault (Bool × Database) :=
  match load db with
  | .error f => .error f
  | .ok db1 => .ok (db1.entries_.any (fun entry => entry.username == username), db1)

/-- `Database::validate_user`. -/
def validate_user (na : Sodium) (db : Database) (username password : String) :
    Except Fault (Bool × Database) :=
  match load db with
  | .error f => .error f
  | .ok db1 =>
    .ok (db1.entries_.any (fun entry =>
      entry.username == username && na.verify_password password entry.password_hash), db1)

/-- `Database::add_user`. -/
def add_user (na : Sodium) (db : Database) (username password : String) :
    Except Fault Database :=
  match load db with
  | .error f => .error f
  | .ok db1 =>
    let password_hash := na.hash_password password
    .ok (save { db1 with
      entries_ := db1.entries_ ++ [{ username := username, password_hash := password_hash }] })

end Database

/-! ## `shared/include/filesystem/utils.hpp`, `shared/src/filesystem/utils.cpp` -/

/-- The struct `fsutils::FileMetadata`. -/
structure FileMetadata where
  relative_path : String
  size : Nat
  last_modified : Nat
  hash : List Nat
deriving DecidableEq, Repr

/-- The library calls made by `fsutils`, over a filesystem state `F`. Paths are the strings a
`std::filesystem::path` is built from. Status queries are total; a call through a throwing
overload that changes the filesystem, or that reads a file or a directory, gives `none` when
it throws; an `error_code` overload gives `true` first when the code is set. -/
structure StdFs (F : Type) where
  /-- The elements `p.begin() .. p.end()`. -/
  elems : String → List String
  /-- `p.lexically_normal()`. -/
  lexically_normal : String → String
  /-- `fs::weakly_canonical(p)`. -/
  weakly_canonical : F → String → Option String
  /-- `fs::relative(p, base)`. -/
  relative : F → String → String → String
  /-- `fs::exists(p)`. -/
  path_exists : F → String → Bool
  /-- `fs::is_regular_file(p)`. -/
  is_regular_file : F → String → Bool
  /-- `fs::is_directory(p)`. -/
  is_directory : F → String → Bool
  /-- `fs::create_directories(p)`. -/
  create_directories : F → String → Option (Bool × F)
  /-- `fs::remove_all(p)`. -/
  remove_all : F → String → Option (Nat × F)
  /-- `fs::remove(p)`. -/
  remove : F → String → Option (Bool × F)
  /-- `fs::remove(p, ec)`. -/
  remove_ec : F → String → Bool × F
  /-- `fs::copy_file(from, to, options, ec)`; the flag is `overwrite_existing`. -/
  copy_file_ec : F → String → String → Bool → Bool × F
  /-- `fs::rename(from, to, ec)`. -/
  rename_ec : F → String → String → Bool × F
  /-- Whether `std::ifstream in(p, std::ios::binary)` opens. -/
  ifstream : F → String → Bool
  /-- Opening `std::ofstream out(p, std::ios::binary)`: whether it opens, and the filesystem
  with the file created or truncated. -/
  ofstream : F → String → Bool × F
  /-- The effect of `out << in.rdbuf()` and the two `close()` calls, from `src` to `dest`. -/
  copy_stream : F → String → String → F
  /-- The entries of `fs::directory_iterator(dir, skip_permission_denied)`. -/
  directory_iterator : F → String → Option (List String)
  /-- The entries of `fs::recursive_directory_iterator(dir, skip_permission_denied)`. -/
  recursive_directory_iterator : F → String → Option (List String)
  /-- `fs::file_size(p)`. -/
  file_size : F → String → Option Nat
  /-- `fs::last_write_time(p)` in seconds since the epoch. -/
  last_write_time : F → String → Option Nat
  /-- `fsutils::hash_file(p)` (libsodium generic hash of the content). -/
  hash_file : F → String → Option (List Nat)

/-- A `none` from a throwing library call becomes a propagating exception. -/
def orThrow {α : Type} : Option α → Except Fault α
  | some a => .ok a
  | none => .error .fs_error

/-- Whether a POSIX path is absolute. -/
def is_absolute (p : String) : Bool :=
  p.data.head? == some '/'

/-- Whether a POSIX path has a filename: it is not empty and does not end in a separator. -/
def has_filename (p : String) : Bool :=
  match p.data.getLast? with
  | none => false
  | some c => c != '/'

/-- The path `p / q` (`operator/` of `std::filesystem::path`, POSIX). -/
def path_append (p q : String) : String :=
  if is_absolute q then q
  else if has_filename p then p ++ "/" ++ q
  else p ++ q

namespace fsutils

variable {F : Type}

/-- `fsutils::relative(path, base)` (the definition in `utils.cpp`). -/
def relative (api : StdFs F) (fs : F) (path base : String) : String :=
  api.relative fs path base

/-- `fsutils::normalize`. -/
def normalize (api : StdFs F) (fs : F) (path : String) : String :=
  match api.weakly_canonical fs path with
  | some p => p
  | none => api.lexically_normal path

/-- `fsutils::exists`. -/
def path_exists (api : StdFs F) (fs : F) (path : String) : Bool :=
  api.path_exists fs path

/-- `fsutils::is_file`. -/
def is_file (api : StdFs F) (fs : F) (path : String) : Bool :=
  api.is_regular_file fs path

/-- `fsutils::is_directory`. -/
def is_directory (api : StdFs F) (fs : F) (path : String) : Bool :=
  api.is_directory fs path

/-- `fsutils::paths_equal`. -/
def paths_equal (api : StdFs F) (fs : F) (p1 p2 : String) : Bool :=
  normalize api fs p1 == normalize api fs p2

/-- The loop of `fsutils::is_subpath` and its final `return base_it == norm_base.end()`; the
first list is what is left from `base_it`, the second what is left from `sub_it`. -/
def is_subpath_loop : List String → List String → Bool
  | [], _ => true
  | _ :: _, [] => false
  | b :: base_it, s :: sub_it => if b != s then false else is_subpath_loop base_it sub_it

/-- `fsutils::is_subpath(sub, base)` as defined in `utils.cpp`: the first parameter is `sub`,
the second is `base`. -/
def is_subpath (api : StdFs F) (fs : F) (sub base : String) : Bool :=
  let norm_base := normalize api fs base
  let norm_sub := normalize api fs sub
  is_subpath_loop (api.elems norm_base) (api.elems norm_sub)

/-- `fsutils::mkdir`. -/
def mkdir (api : StdFs F) (fs : F) (path : String) : Except Fault (Bool × F) :=
  orThrow (api.create_directories fs path)

/-- `fsutils::rmdir`. -/
def rmdir (api : StdFs F) (fs : F) (path : String) : Except Fault (Bool × F) :=
  match api.remove_all fs path with
  | some (n, fs1) => .ok (decide (n > 0), fs1)
  | none => .error .fs_error

/-- `fsutils::remove_file`. -/
def remove_file (api : StdFs F) (fs : F) (path : String) : Except Fault (Bool × F) :=
  orThrow (api.remove fs path)

/-- `fsutils::copy_file`. -/
def copy_file (api : StdFs F) (fs : F) (src dest : String) (overwrite : Bool) : Bool × F :=
  let r := api.copy_file_ec fs src dest overwrite
  if r.1 then (false, r.2) else (true, r.2)

/-- `fsutils::move_file`. -/
def move_file (api : StdFs F) (fs : F) (src dest : String) (overwrite : Bool) : Bool × F :=
  let r1 := if overwrite && api.path_exists fs dest then api.remove_ec fs dest else (false, fs)
  if r1.1 then (false, r1.2)
  else
    let r2 := api.rename_ec r1.2 src dest
    if r2.1 then
      let in_ok := api.ifstream r2.2 src
      let out := api.ofstream r2.2 dest
      if !in_ok || !out.1 then (false, out.2)
      else
        let fs3 := api.copy_stream out.2 src dest
        let r4 := api.remove_ec fs3 src
        if r4.1 then (false, r4.2) else (true, r4.2)
    else (true, r2.2)

/-- The lambda `process_entry` of `fsutils::scan_directory`. -/
def process_entry (api : StdFs F) (fs : F) (dir : String) (files : List FileMetadata)
    (entry : String) : Except Fault (List FileMetadata) :=
  if is_file api fs entry then
    match api.file_size fs entry, api.last_write_time fs entry, api.hash_file fs entry with
    | some sz, some t, some h =>
      .ok (files ++ [{ relative_path := relative api fs entry dir, size := sz,
                       last_modified := t, hash := h }])
    | _, _, _ => .error .fs_error
  else .ok files

/-- `fsutils::scan_directory`. -/
def scan_directory (api : StdFs F) (fs : F) (dir : String) (recursive : Bool) :
    Except Fault (List FileMetadata) :=
  match (if recursive then api.recursive_directory_iterator fs dir
         else api.directory_iterator fs dir) with
  | none => .error .fs_error
  | some entries => entries.foldlM (process_entry api fs dir) []

end fsutils

/-! ## `shared/src/protocol/message.cpp` -/

namespace Json

/-- The checked access `j.at(key)`. -/
def member (j : Json) (key : String) : Except Fault Json :=
  match j with
  | .obj kvs =>
    match lookup key kvs with
    | some v => .ok v
    | none => .error .json_error
  | _ => .error .json_error

/-- The conversion `get<std::string>()`. -/
def get_string : Json → Except Fault String
  | .str s => .ok s
  | _ => .error .json_error

/-- The conversion `get<uintN_t>()` for `N = bits`: a stored integer is cast (reduced modulo
`2 ^ bits`), a boolean gives 0 or 1. -/
def get_unsigned (bits : Nat) : Json → Except Fault Nat
  | .num n => .ok (n % (2 : Int) ^ bits).toNat
  | .bool b => .ok (if b then 1 else 0)
  | _ => .error .json_error

end Json

/-- `protocol::to_json(json&, const Request&)`. -/
def Request.to_json (req : Request) : Json :=
  .obj [ ("cmd", .str req.cmd),
         ("first_argument", .str req.first_argument),
         ("hash", .str req.hash),
         ("second_argument", .str req.second_argument),
         ("size", .num req.size) ]

/-- `protocol::to_json(json&, const Response&)`. -/
def Response.to_json (res : Response) : Json :=
  .obj [ ("code", .num res.code),
         ("hash", .str res.hash),
         ("message", .str res.message),
         ("status", .str res.status) ]

/-- `protocol::from_json(const json&, Request&)`. -/
def Request.from_json (j : Json) : Except Fault Request := do
  let cmd ← (← j.member "cmd").get_string
  let first_argument ← (← j.member "first_argument").get_string
  let second_argument ← (← j.member "second_argument").get_string
  let size ← (← j.member "size").get_unsigned 32
  let hash ← (← j.member "hash").get_string
  pure { cmd := cmd, first_argument := first_argument, second_argument := second_argument,
         size := size, hash := hash }

/-- `protocol::from_json(const json&, Response&)`. -/
def Response.from_json (j : Json) : Except Fault Response := do
  let status ← (← j.member "status").get_string
  let code ← (← j.member "code").get_unsigned 16
  let message ← (← j.member "message").get_string
  let hash ← (← j.member "hash").get_string
  pure { status := status, code := code, message := message, hash := hash }

/-! ## `server/include/session.hpp`, `server/src/session.cpp` -/

/-- The enum `SessionSate`. -/
inductive SessionSate where
  | AUTH
  | OK
  | ERROR
  | CONFLICT
  | NEED_INPUT_REGISTER
  | NEED_INPUT_RESUME_UPDATE
  | BUSY
  | LOGIN
  | READY
  | EXIT
  | SETUP
deriving DecidableEq, Repr

/-- The data members of `Session` that the handlers read or write, with the two things they
reach outside the object: the `Database` behind the handle `db_` (`none` is a null handle)
and the filesystem `fs` of the server process. -/
structure Session (F : Type) where
  root_ : String
  db_ : Option Database
  state_ : SessionSate
  current_dir_ : String
  user_dir_ : String
  username_ : String
  fs : F

/-- What a handler returns: the session afterwards and the responses handed to
`write_response`, in order; or the fault it leaves with. -/
abbrev Outcome (F : Type) := Except Fault (Session F × List Response)

namespace Session

variable {F : Type}

/-- The constructor `Session::Session(socket, root, db)` and the default member initialisers. -/
def create (root : String) (db : Option Database) (fs : F) : Session F :=
  { root_ := root, db_ := db, state_ := .LOGIN, current_dir_ := "", user_dir_ := "",
    username_ := "", fs := fs }

/-- The call `db_->user_exists(username)`. -/
def db_user_exists (s : Session F) (username : String) : Except Fault (Bool × Session F) :=
  match s.db_ with
  | none => .error .null_handle
  | some db =>
    match db.user_exists username with
    | .error f => .error f
    | .ok (b, db1) => .ok (b, { s with db_ := some db1 })

/-- The call `db_->validate_user(username, password)`. -/
def db_validate_user (na : Sodium) (s : Session F) (username password : String) :
    Except Fault (Bool × Session F) :=
  match s.db_ with
  | none => .error .null_handle
  | some db =>
    match db.validate_user na username password with
    | .error f => .error f
    | .ok (b, db1) => .ok (b, { s with db_ := some db1 })

/-- The call `db_->add_user(username, password)`. -/
def db_add_user (na : Sodium) (s : Session F) (username password : String) :
    Except Fault (Session F) :=
  match s.db_ with
  | none => .error .null_handle
  | some db =>
    match db.add_user na username password with
    | .error f => .error f
    | .ok db1 => .ok { s with db_ := some db1 }

/-- `Session::login`. -/
def login (api : StdFs F) (s : Session F) (req : Request) : Outcome F :=
  if s.state_ ≠ .LOGIN then
    .ok (s, [{ status := statuses.ERROR, code := codes.SERVICE_UNAVAILABLE,
               message := "Already logged in", hash := "" }])
  else if req.first_argument = "" then
    let user_dir := api.relative s.fs "/public/files" s.root_
    .ok ({ s with user_dir_ := user_dir, current_dir_ := user_dir, username_ := "",
                  state_ := .READY },
         [{ status := statuses.OK, code := codes.OK,
            message := "No username provided. Operating in public mode.", hash := "" }])
  else
    match db_user_exists { s with username_ := req.first_argument } req.first_argument with
    | .error f => .error f
    | .ok (found, s1) =>
      if !found then
        .ok ({ s1 with state_ := .NEED_INPUT_REGISTER },
             [{ status := statuses.NEED_INPUT, code := codes.UNAUTHORIZED,
                message := "User does not exist. Do you want to register? (Y/n)", hash := "" }])
      else
        .ok ({ s1 with state_ := .AUTH },
             [{ status := statuses.AUTH, code := codes.UNAUTHORIZED,
                message := "Please provide your password.", hash := "" }])

/-- A call `fsutils::mkdir(path)` whose result is dropped. -/
def mkdir_ (api : StdFs F) (fs : F) (path : String) : Except Fault F :=
  match fsutils.mkdir api fs path with
  | .error f => .error f
  | .ok (_, fs1) => .ok fs1

/-- The directory provisioning of `Session::setup_dir` (its `if`/`else`). -/
def setup_dir_fs (api : StdFs F) (fs : F) (root_ username_ : String) : Except Fault F :=
  let home := path_append (path_append root_ "private") username_
  let files := path_append home "files"
  let part := path_append home ".partial"
  if fsutils.is_directory api fs home then
    match (if !fsutils.is_directory api fs files then mkdir_ api fs files else .ok fs) with
    | .error f => .error f
    | .ok fs1 =>
      if !fsutils.is_directory api fs1 part then mkdir_ api fs1 part else .ok fs1
  else
    match mkdir_ api fs home with
    | .error f => .error f
    | .ok fs1 =>
      match mkdir_ api fs1 files with
      | .error f => .error f
      | .ok fs2 => mkdir_ api fs2 part

/-- `Session::setup_dir`. -/
def setup_dir (api : StdFs F) (s : Session F) : Except Fault (Session F) :=
  match setup_dir_fs api s.fs s.root_ s.username_ with
  | .error f => .error f
  | .ok fs1 =>
    let user_dir := fsutils.relative api fs1 ("/private/" ++ s.username_ ++ "/files") s.root_
    .ok { s with fs := fs1, user_dir_ := user_dir, current_dir_ := user_dir }

/-- `Session::auth`. -/
def auth (api : StdFs F) (na : Sodium) (s : Session F) (req : Request) : Outcome F :=
  if s.state_ ≠ .AUTH then
    .ok (s, [{ status := statuses.ERROR, code := codes.SERVICE_UNAVAILABLE,
               message := "Not in authentication state", hash := "" }])
  else if req.first_argument = "" then
    .ok (s, [{ status := statuses.AUTH, code := codes.BAD_REQUEST,
               message := "Password cannot be empty. Try again.", hash := "" }])
  else
    match db_user_exists s s.username_ with
    | .error f => .error f
    | .ok (true, s1) =>
      match db_validate_user na s1 s1.username_ req.first_argument with
      | .error f => .error f
      | .ok (true, s2) =>
        match setup_dir api s2 with
        | .error f => .error f
        | .ok s3 =>
          .ok ({ s3 with state_ := .READY },
               [{ status := statuses.OK, code := codes.OK,
                  message := "Authentication successful.", hash := "" }])
      | .ok (false, s2) =>
        .ok (s2, [{ status := statuses.AUTH, code := codes.UNAUTHORIZED,
                    message := "Invalid password. Try again.", hash := "" }])
    | .ok (false, s1) =>
      match db_user_exists s1 s1.username_ with
      | .error f => .error f
      | .ok (true, s2) => .ok (s2, [])
      | .ok (false, s2) =>
        match db_add_user na s2 s2.username_ req.first_argument with
        | .error f => .error f
        | .ok s3 =>
          match setup_dir api s3 with
          | .error f => .error f
          | .ok s4 =>
            .ok ({ s4 with state_ := .READY },
                 [{ status := statuses.OK, code := codes.OK,
                    message := "Registration successful.", hash := "" }])

/-- `Session::need_input`. -/
def need_input (api : StdFs F) (s : Session F) (req : Request) : Outcome F :=
  match s.state_ with
  | .NEED_INPUT_REGISTER =>
    if req.first_argument = "Y" then
      .ok ({ s with state_ := .AUTH },
           [{ status := statuses.AUTH, code := codes.UNAUTHORIZED,
              message := "For registration, please provide a password.", hash := "" }])
    else if req.first_argument = "n" then
      let user_dir := api.relative s.fs "/public/files" s.root_
      .ok ({ s with user_dir_ := user_dir, current_dir_ := user_dir, state_ := .READY },
           [{ status := statuses.OK, code := codes.OK,
              message := "No registrartion. Operating in public mode.", hash := "" }])
    else
      .ok (s, [{ status := statuses.ERROR, code := codes.BAD_REQUEST,
                 message := "Invalid input for registration. Y/n expected.", hash := "" }])
  | .NEED_INPUT_RESUME_UPDATE => .ok (s, [])
  | _ =>
    .ok (s, [{ status := statuses.ERROR, code := codes.SERVICE_UNAVAILABLE,
               message := "No input required at this time.", hash := "" }])

/-- `Session::exit` (empty body). -/
def exit (s : Session F) (_req : Request) : Outcome F :=
  .ok (s, [])

/-- `Session::upload` (empty body). -/
def upload (s : Session F) (_req : Request) : Outcome F :=
  .ok (s, [])

/-- `Session::download` (empty body). -/
def download (s : Session F) (_req : Request) : Outcome F :=
  .ok (s, [])

/-- `Session::sync` (empty body). -/
def sync (s : Session F) (_req : Request) : Outcome F :=
  .ok (s, [])

/-- The response `{ERROR, SERVICE_UNAVAILABLE, "Session not ready.", ""}`. -/
def not_ready : Response :=
  { status := statuses.ERROR, code := codes.SERVICE_UNAVAILABLE,
    message := "Session not ready.", hash := "" }

/-- The response `{ERROR, FORBIDDEN, "Access denied.", ""}`. -/
def access_denied : Response :=
  { status := statuses.ERROR, code := codes.FORBIDDEN, message := "Access denied.", hash := "" }

/-- The loops `file_list += file.relative_path.string() + "\n"` of `Session::list`. -/
def file_list (init : String) (files : List FileMetadata) : String :=
  files.foldl (fun acc file => acc ++ (file.relative_path ++ "\n")) init

/-- `Session::list`. -/
def list (api : StdFs F) (s : Session F) (req : Request) : Outcome F :=
  if s.state_ ≠ .READY then .ok (s, [not_ready])
  else if req.first_argument = "" then
    match fsutils.scan_directory api s.fs s.current_dir_ false with
    | .error f => .error f
    | .ok files =>
      .ok (s, [{ status := statuses.OK, code := codes.OK,
                 message := file_list ("Current directory: " ++ s.current_dir_ ++ "\n") files,
                 hash := "" }])
  else if !fsutils.is_directory api s.fs req.first_argument then
    .ok (s, [{ status := statuses.ERROR, code := codes.BAD_REQUEST,
               message := "Directory does not exist.", hash := "" }])
  else if !fsutils.is_subpath api s.fs s.user_dir_ req.first_argument then
    .ok (s, [access_denied])
  else
    match fsutils.scan_directory api s.fs req.first_argument false with
    | .error f => .error f
    | .ok files =>
      .ok (s, [{ status := statuses.OK, code := codes.OK,
                 message := file_list "" files, hash := "" }])

/-- `Session::delete_file`. -/
def delete_file (api : StdFs F) (s : Session F) (req : Request) : Outcome F :=
  if s.state_ ≠ .READY then .ok (s, [not_ready])
  else if !fsutils.is_file api s.fs req.first_argument then
    .ok (s, [{ status := statuses.ERROR, code := codes.BAD_REQUEST,
               message := "File does not exist.", hash := "" }])
  else if !fsutils.is_subpath api s.fs s.user_dir_ req.first_argument then
    .ok (s, [access_denied])
  else
    match fsutils.remove_file api s.fs req.first_argument with
    | .error f => .error f
    | .ok (removed, fs1) =>
      if !removed then
        .ok ({ s with fs := fs1 },
             [{ status := statuses.ERROR, code := codes.INTERNAL_SERVER_ERROR,
                message := "Cannot remove file", hash := "" }])
      else
        .ok ({ s with fs := fs1 },
             [{ status := statuses.OK, code := codes.OK, message := "File deleted", hash := "" }])

/-- `Session::cd`. -/
def cd (api : StdFs F) (s : Session F) (req : Request) : Outcome F :=
  if s.state_ ≠ .READY then .ok (s, [not_ready])
  else if !fsutils.is_directory api s.fs req.first_argument then
    .ok (s, [{ status := statuses.ERROR, code := codes.BAD_REQUEST,
               message := "Directory does not exist.", hash := "" }])
  else if !fsutils.is_subpath api s.fs s.user_dir_ req.first_argument then
    .ok (s, [access_denied])
  else
    .ok ({ s with current_dir_ := req.first_argument },
         [{ status := statuses.OK, code := codes.OK, message := "Directory changed.",
            hash := "" }])

/-- `Session::mkdir`. -/
def mkdir (api : StdFs F) (s : Session F) (req : Request) : Outcome F :=
  if s.state_ ≠ .READY then .ok (s, [not_ready])
  else if req.first_argument = "" then
    .ok (s, [{ status := statuses.ERROR, code := codes.BAD_REQUEST,
               message := "Directory path cannot be empty.", hash := "" }])
  else if fsutils.is_directory api s.fs req.first_argument then
    .ok (s, [{ status := statuses.ERROR, code := codes.PRECONDITION_FAILED,
               message := "Directory already exists.", hash := "" }])
  else if !fsutils.is_subpath api s.fs s.user_dir_ req.first_argument then
    .ok (s, [access_denied])
  else
    match fsutils.mkdir api s.fs req.first_argument with
    | .error f => .error f
    | .ok (created, fs1) =>
      if !created then
        .ok ({ s with fs := fs1 },
             [{ status := statuses.ERROR, code := codes.INTERNAL_SERVER_ERROR,
                message := "Cannot create directory.", hash := "" }])
      else
        .ok ({ s with fs := fs1 },
             [{ status := statuses.OK, code := codes.OK, message := "Directory created.",
                hash := "" }])

/-- `Session::rmdir`. -/
def rmdir (api : StdFs F) (s : Session F) (req : Request) : Outcome F :=
  if s.state_ ≠ .READY then .ok (s, [not_ready])
  else if req.first_argument = "" then
    .ok (s, [{ status := statuses.ERROR, code := codes.BAD_REQUEST,
               message := "Directory path cannot be empty.", hash := "" }])
  else if !fsutils.is_directory api s.fs req.first_argument then
    .ok (s, [{ status := statuses.ERROR, code := codes.BAD_REQUEST,
               message := "Directory does no  exist.", hash := "" }])
  else if !fsutils.is_subpath api s.fs s.user_dir_ req.first_argument then
    .ok (s, [access_denied])
  else
    match fsutils.rmdir api s.fs req.first_argument with
    | .error f => .error f
    | .ok (removed, fs1) =>
      if !removed then
        .ok ({ s with fs := fs1 },
             [{ status := statuses.ERROR, code := codes.INTERNAL_SERVER_ERROR,
                message := "Cannot delete directory.", hash := "" }])
      else
        .ok ({ s with fs := fs1 },
             [{ status := statuses.OK, code := codes.OK, message := "Directory deleted.",
                hash := "" }])

/-- The pre-check shared by `Session::move` and `Session::copy`; both operands of each `&&`
are the second argument. -/
def incorrect_paths (api : StdFs F) (fs : F) (req : Request) : Bool :=
  (fsutils.is_directory api fs req.second_argument &&
    fsutils.is_directory api fs req.second_argument) ||
  (fsutils.is_file api fs req.second_argument &&
    fsutils.is_file api fs req.second_argument)

/-- `Session::move`. -/
def move (api : StdFs F) (s : Session F) (req : Request) : Outcome F :=
  if s.state_ ≠ .READY then .ok (s, [not_ready])
  else if req.first_argument = "" ∨ req.second_argument = "" then
    .ok (s, [{ status := statuses.ERROR, code := codes.BAD_REQUEST,
               message := "File path cannot be empty.", hash := "" }])
  else if incorrect_paths api s.fs req then
    .ok (s, [{ status := statuses.ERROR, code := codes.PRECONDITION_FAILED,
               message := "Incorrect paths.", hash := "" }])
  else if !fsutils.is_subpath api s.fs s.user_dir_ req.first_argument
      || !fsutils.is_subpath api s.fs s.user_dir_ req.second_argument then
    .ok (s, [access_denied])
  else
    let r := fsutils.move_file api s.fs req.first_argument req.second_argument false
    if !r.1 then
      .ok ({ s with fs := r.2 },
           [{ status := statuses.ERROR, code := codes.INTERNAL_SERVER_ERROR,
              message := "Cannot move files.", hash := "" }])
    else
      .ok ({ s with fs := r.2 },
           [{ status := statuses.OK, code := codes.OK, message := "File moved.", hash := "" }])

/-- `Session::copy`. -/
def copy (api : StdFs F) (s : Session F) (req : Request) : Outcome F :=
  if s.state_ ≠ .READY then .ok (s, [not_ready])
  else if req.first_argument = "" ∨ req.second_argument = "" then
    .ok (s, [{ status := statuses.ERROR, code := codes.BAD_REQUEST,
               message := "File path cannot be empty.", hash := "" }])
  else if incorrect_paths api s.fs req then
    .ok (s, [{ status := statuses.ERROR, code := codes.PRECONDITION_FAILED,
               message := "Incorrect paths.", hash := "" }])
  else if !fsutils.is_subpath api s.fs s.user_dir_ req.first_argument
      || !fsutils.is_subpath api s.fs s.user_dir_ req.second_argument then
    .ok (s, [access_denied])
  else
    let r := fsutils.copy_file api s.fs req.first_argument req.second_argument false
    if !r.1 then
      .ok ({ s with fs := r.2 },
           [{ status := statuses.ERROR, code := codes.INTERNAL_SERVER_ERROR,
              message := "Cannot copy files.", hash := "" }])
    else
      .ok ({ s with fs := r.2 },
           [{ status := statuses.OK, code := codes.OK, message := "File copied.", hash := "" }])

/-- The table `requests_` filled by the constructor of `Session`. -/
def requests_ (api : StdFs F) : List (String × (Session F → Request → Outcome F)) :=
  [ (commands.LIST, list api),
    (commands.UPLOAD, upload),
    (commands.DOWNLOAD, download),
    (commands.DELETE, delete_file api),
    (commands.CD, cd api),
    (commands.MKDIR, mkdir api),
    (commands.RMDIR, rmdir api),
    (commands.MOVE, move api),
    (commands.COPY, copy api),
    (commands.SYNC, sync),
    (commands.EXIT, exit),
    (commands.LOGIN, login api) ]

/-- The lookup `requests_.find(cmd)`. -/
def find_handler (cmd : String) :
    List (String × (Session F → Request → Outcome F)) → Option (Session F → Request → Outcome F)
  | [] => none
  | (k, h) :: rest => if k = cmd then some h else find_handler cmd rest

/-- `Session::handle_request` from the decoded request `req` on. -/
def dispatch (api : StdFs F) (s : Session F) (req : Request) : Outcome F :=
  match find_handler req.cmd (requests_ api) with
  | some handler => handler s req
  | none =>
    .ok (s, [{ status := statuses.ERROR, code := codes.BAD_REQUEST,
               message := "Unknown request", hash := "" }])

/-- `Session::handle_request`. -/
def handle_request (api : StdFs F) (s : Session F) (j : Json) : Outcome F :=
  match Request.from_json j with
  | .error f => .error f
  | .ok req => dispatch api s req

/-- The requests of one connection handled in order (the `handle_request(j); read_header();`
cycle of `Session::read_body`), with all responses written. -/
def handle_requests (api : StdFs F) : Session F → List Json → Outcome F
  | s, [] => .ok (s, [])
  | s, j :: js =>
    match handle_request api s j with
    | .error f => .error f
    | .ok (s1, out1) =>
      match handle_requests api s1 js with
      | .error f => .error f
      | .ok (s2, out2) => .ok (s2, out1 ++ out2)

end Session

/-! ## A concrete filesystem

`Tree` is a symlink-free POSIX tree held in memory, and `Tree.api` the library calls on it.
Names are resolved lexically against the working directory. It is the instance on which the
handlers are evaluated at concrete inputs. -/

/-- The names between the separators of a path, empty names included; `cur` is the name
being read, reversed. -/
def names_aux : List Char → List Char → List String
  | [], cur => [String.mk cur.reverse]
  | c :: cs, cur =>
    if c = '/' then String.mk cur.reverse :: names_aux cs [] else names_aux cs (c :: cur)

/-- The names between the separators of a path. -/
def names (p : String) : List String :=
  names_aux p.data []

/-- Names joined by separators. -/
def join_names : List String → String
  | [] => ""
  | [n] => n
  | n :: rest => n ++ "/" ++ join_names rest

/-- Path iteration on POSIX: the root directory, the filenames, and an empty last element
for a trailing separator. -/
def posix_elems (p : String) : List String :=
  let body := (names p).filter (fun n => n != "")
  (if is_absolute p then ["/"] else []) ++ body ++
    (if !has_filename p && !body.isEmpty then [""] else [])

/-- One element of `lexically_normal`: dot is dropped, dot-dot removes the name before it
(or is dropped after the root, or is kept in front of a relative path). -/
def normal_step (abs : Bool) (acc : List String) (n : String) : List String :=
  if n = "" ∨ n = "." then acc
  else if n = ".." then
    match acc.getLast? with
    | none => if abs then acc else acc ++ [".."]
    | some top => if top = ".." then acc ++ [".."] else acc.dropLast
  else acc ++ [n]

/-- The member `lexically_normal` on POSIX. -/
def posix_lexically_normal (p : String) : String :=
  if p = "" then ""
  else
    let abs := is_absolute p
    let stack := (names p).foldl (normal_step abs) []
    let dirlike := (names p).getLast? == some "" || (names p).getLast? == some "."
      || (names p).getLast? == some ".."
    let trailing := dirlike && !stack.isEmpty && stack.getLast? != some ".."
    if abs then "/" ++ join_names stack ++ (if trailing then "/" else "")
    else if stack.isEmpty then "."
    else join_names stack ++ (if trailing then "/" else "")

/-- The names from the root of the location a path denotes, seen from `cwd`. -/
def resolve (cwd : List String) (p : String) : List String :=
  (names p).foldl
    (fun acc n => if n = "" ∨ n = "." then acc else if n = ".." then acc.dropLast else acc ++ [n])
    (if is_absolute p then [] else cwd)

/-- Two name lists without their common front. -/
def strip_common : List String → List String → List String × List String
  | a :: as, b :: bs => if a = b then strip_common as bs else (a :: as, b :: bs)
  | as, bs => (as, bs)

/-- A symlink-free filesystem: the working directory, the directories other than the root,
and the regular files with their content, each named by its names from the root. -/
structure Tree where
  cwd : List String
  dirs : List (List String)
  files : List (List String × List Nat)
deriving DecidableEq, Repr

namespace Tree

/-- Whether the location `ns` is a directory. -/
def dir_at (t : Tree) (ns : List String) : Bool :=
  ns.isEmpty || t.dirs.contains ns

/-- Whether the location `ns` is a regular file. -/
def file_at (t : Tree) (ns : List String) : Bool :=
  t.files.any (fun f => f.1 == ns)

/-- Whether the location `q` is `ns` or lies below it. -/
def below (ns q : List String) : Bool :=
  ns.isPrefixOf q

/-- The absolute, normal path of `p`. -/
def canonical (t : Tree) (p : String) : String :=
  if p = "" then "" else "/" ++ join_names (resolve t.cwd p)

/-- The path of `p` relative to `base`: one dot-dot for every name of `base` after the common
front, then the names of `p` after it. -/
def relative (t : Tree) (p base : String) : String :=
  if p = "" ∨ base = "" then (if p = base then "." else "")
  else
    let r := strip_common (resolve t.cwd p) (resolve t.cwd base)
    let out := r.2.map (fun _ => "..") ++ r.1
    if out.isEmpty then "." else join_names out

/-- Creation of `p` and of its missing parents; throws when a regular file is in the way. -/
def create_directories (t : Tree) (p : String) : Option (Bool × Tree) :=
  if p = "" then none
  else
    let ns := resolve t.cwd p
    let pre := (List.inits ns).tail
    if pre.any t.file_at then none
    else if t.dir_at ns then some (false, t)
    else some (true, { t with dirs := t.dirs ++ pre.filter (fun d => !t.dirs.contains d) })

/-- Removal of `p` with everything below it; the count of removed entries. The root cannot
be removed. -/
def remove_all (t : Tree) (p : String) : Option (Nat × Tree) :=
  if p = "" then some (0, t)
  else
    let ns := resolve t.cwd p
    if ns.isEmpty then none
    else
      some ((t.dirs.filter (below ns)).length + (t.files.filter (fun f => below ns f.1)).length,
            { t with dirs := t.dirs.filter (fun d => !below ns d),
                     files := t.files.filter (fun f => !below ns f.1) })

/-- Whether the directory `ns` has an entry. -/
def occupied (t : Tree) (ns : List String) : Bool :=
  t.dirs.any (fun d => below ns d && d != ns) || t.files.any (fun f => below ns f.1)

/-- Removal of one file or one empty directory: `none` on an error, else whether something
was removed. -/
def remove (t : Tree) (p : String) : Option (Bool × Tree) :=
  let ns := resolve t.cwd p
  if p = "" then some (false, t)
  else if t.file_at ns then some (true, { t with files := t.files.filter (fun f => f.1 != ns) })
  else if ns.isEmpty then none
  else if t.dir_at ns then
    if t.occupied ns then none else some (true, { t with dirs := t.dirs.filter (fun d => d != ns) })
  else some (false, t)

/-- The same removal reporting through an `error_code`. -/
def remove_ec (t : Tree) (p : String) : Bool × Tree :=
  match t.remove p with
  | some r => (false, r.2)
  | none => (true, t)

/-- The content of the regular file at `ns`. -/
def content (t : Tree) (ns : List String) : Option (List Nat) :=
  (t.files.find? (fun f => f.1 == ns)).map Prod.snd

/-- The file at `ns` written with `data`, replacing an older one. -/
def put (t : Tree) (ns : List String) (data : List Nat) : Tree :=
  { t with files := t.files.filter (fun f => f.1 != ns) ++ [(ns, data)] }

/-- Copy of a regular file; an existing destination is an error unless `overwrite`. -/
def copy_file_ec (t : Tree) (src dest : String) (overwrite : Bool) : Bool × Tree :=
  let d := resolve t.cwd dest
  match t.content (resolve t.cwd src) with
  | none => (true, t)
  | some data =>
    if t.dir_at d || !t.dir_at d.dropLast then (true, t)
    else if t.file_at d && !overwrite then (true, t)
    else (false, t.put d data)

/-- Renaming of a regular file, or of a directory with all it holds. -/
def rename_ec (t : Tree) (src dest : String) : Bool × Tree :=
  let a := resolve t.cwd src
  let d := resolve t.cwd dest
  if src = "" ∨ dest = "" ∨ !t.dir_at d.dropLast then (true, t)
  else
    match t.content a with
    | some data =>
      if t.dir_at d then (true, t)
      else (false, { (t.put d data) with files := (t.put d data).files.filter (fun f => f.1 != a) })
    | none =>
      if a.isEmpty || !t.dir_at a || t.file_at d || below a d || (t.dir_at d && t.occupied d) then
        (true, t)
      else
        let move := fun (q : List String) => if below a q then d ++ q.drop a.length else q
        (false, { t with dirs := (t.dirs.filter (fun q => q != d)).map move,
                         files := t.files.map (fun f => (move f.1, f.2)) })

/-- Opening for reading succeeds on every existing entry. -/
def ifstream (t : Tree) (p : String) : Bool :=
  p != "" && (t.dir_at (resolve t.cwd p) || t.file_at (resolve t.cwd p))

/-- Opening for writing creates or truncates a regular file in an existing directory. -/
def ofstream (t : Tree) (p : String) : Bool × Tree :=
  let d := resolve t.cwd p
  if p = "" ∨ t.dir_at d ∨ !t.dir_at d.dropLast then (false, t) else (true, t.put d [])

/-- The content of `src` written to the open file `dest`. -/
def copy_stream (t : Tree) (src dest : String) : Tree :=
  match t.content (resolve t.cwd src) with
  | some data => t.put (resolve t.cwd dest) data
  | none => t

/-- The entries directly in `dir`, as `dir / name`. -/
def directory_iterator (t : Tree) (dir : String) : Option (List String) :=
  let ns := resolve t.cwd dir
  if dir = "" ∨ !t.dir_at ns then none
  else
    some (((t.dirs ++ t.files.map Prod.fst).filter
      (fun q => below ns q && q.length == ns.length + 1)).map
        (fun q => path_append dir (join_names (q.drop ns.length))))

/-- The entries below `dir`, as `dir / names`. -/
def recursive_directory_iterator (t : Tree) (dir : String) : Option (List String) :=
  let ns := resolve t.cwd dir
  if dir = "" ∨ !t.dir_at ns then none
  else
    some (((t.dirs ++ t.files.map Prod.fst).filter
      (fun q => below ns q && q.length > ns.length)).map
        (fun q => path_append dir (join_names (q.drop ns.length))))

/-- The library calls on a `Tree`. Files carry no time stamp (the time is 0) and the digest
of a file is stood for by its content. -/
def api : StdFs Tree where
  elems := posix_elems
  lexically_normal := posix_lexically_normal
  weakly_canonical := fun t p => some (t.canonical p)
  relative := relative
  path_exists := fun t p => p != "" && (t.dir_at (resolve t.cwd p) || t.file_at (resolve t.cwd p))
  is_regular_file := fun t p => p != "" && t.file_at (resolve t.cwd p)
  is_directory := fun t p => p != "" && t.dir_at (resolve t.cwd p)
  create_directories := create_directories
  remove_all := remove_all
  remove := remove
  remove_ec := remove_ec
  copy_file_ec := copy_file_ec
  rename_ec := rename_ec
  ifstream := ifstream
  ofstream := ofstream
  copy_stream := copy_stream
  directory_iterator := directory_iterator
  recursive_directory_iterator := recursive_directory_iterator
  file_size := fun t p => (t.content (resolve t.cwd p)).map List.length
  last_write_time := fun t p => (t.content (resolve t.cwd p)).map (fun _ => 0)
  hash_file := fun t p => t.content (resolve t.cwd p)

end Tree

/-! ## Sample states -/

/-- A server tree under the root directory `/srv`, which is also the working directory:
`/srv/public/files` and `/srv/private` exist. -/
def tree_srv : Tree :=
  { cwd := ["srv"],
    dirs := [["srv"], ["srv", "public"], ["srv", "public", "files"], ["srv", "private"]],
    files := [] }

/-- A server tree whose root directory and working directory are `/`: `/public/files` and
`/private` exist. -/
def tree_slash : Tree :=
  { cwd := [], dirs := [["public"], ["public", "files"], ["private"]], files := [] }

/-- A password hash that records the password, verified by comparison. -/
def sodium_plain : Sodium :=
  { hash_password := fun password => "hash:" ++ password,
    verify_password := fun password hash => hash == "hash:" ++ password }

/-- A fresh session of a server started with `--root /srv` on an empty account store. -/
def session_srv : Session Tree :=
  Session.create "/srv" (some (Database.create .absent)) tree_srv

/-- A fresh session of a server started with `--root /` on an empty account store. -/
def session_slash : Session Tree :=
  Session.create "/" (some (Database.create .absent)) tree_slash

/-- The session of `--root /srv` after the name alice was given and registration was chosen:
state AUTH, the account store still empty. -/
def session_alice : Session Tree :=
  { session_srv with username_ := "alice", state_ := SessionSate.AUTH }

/-- The tree `tree_srv` with the directories of alice provisioned. -/
def tree_srv_alice : Tree :=
  { cwd := ["srv"],
    dirs := [["srv"], ["srv", "public"], ["srv", "public", "files"], ["srv", "private"],
             ["srv", "private", "alice"], ["srv", "private", "alice", "files"],
             ["srv", "private", "alice", ".partial"]],
    files := [] }

/-- The account store holding alice with the password secret, as `add_user` saves it. -/
def database_alice : Database :=
  Database.save { file := (Database.create .absent).file,
                  entries_ := [{ username := "alice", password_hash := "hash:secret" }] }

/-- The session of `--root /` after a login with an empty username: state READY, the
sandbox `public/files` (which denotes `/public/files` from the working directory `/`). -/
def session_public : Session Tree :=
  { session_slash with user_dir_ := "public/files", current_dir_ := "public/files",
                       state_ := SessionSate.READY }

/-- A request with a command and two arguments, `size` 0 and an empty `hash`. -/
def request (cmd first_argument second_argument : String) : Request :=
  { cmd := cmd, first_argument := first_argument, second_argument := second_argument,
    size := 0, hash := "" }

/-! ## Framing: `write_response`, `Client::send`, `read_header`, `read_body`

Bytes are natural numbers below 256. The serializer `json::dump()` is a parameter of the two
writers; `Json.dump` is a concrete compact serializer on which they are evaluated. -/

/-- The four bytes in memory of `htonl(n)` for a `uint32_t` value `n`: the most significant
byte first. -/
def htonl (n : Nat) : List Nat :=
  [n / 16777216 % 256, n / 65536 % 256, n / 256 % 256, n % 256]

/-- The `uint32_t` value `ntohl` gives for four bytes in memory. -/
def ntohl : List Nat → Nat
  | [b3, b2, b1, b0] => b3 * 16777216 + b2 * 65536 + b1 * 256 + b0
  | _ => 0

/-- `Session::write_response`: the bytes of the two buffers handed to `asio::async_write`.
The argument of `htonl` is `write_buffer->size()` converted from `size_t` to `uint32_t`. -/
def Session.write_response (dump : Json → List Nat) (j : Json) : List Nat :=
  let write_buffer := dump j
  let response_len := htonl (write_buffer.length % 4294967296)
  response_len ++ write_buffer

/-- `Client::send`: the bytes of the two buffers handed to `asio::async_write`. -/
def Client.send (dump : Json → List Nat) (j : Json) : List Nat :=
  let write_buffer := dump j
  let len := htonl (write_buffer.length % 4294967296)
  len ++ write_buffer

/-- What the reading side of a session calls or starts. -/
inductive Act where
  /-- The call `handle_error(ec)`, which writes one line to `std::cerr`. -/
  | handle_error
  /-- The call `read_header()`, which starts the `async_read` of the four length bytes. -/
  | read_header
  /-- The start of `asio::async_read(socket_, asio::buffer(buffer_), ...)` on `n` bytes. -/
  | async_read (n : Nat)
  /-- The call `handle_request(j)`. -/
  | handle_request (j : Json)

/-- `Session::read_body` up to its return, for the length `msg_len_` set by `read_header`:
the branch for the length 0 does not return. -/
def Session.read_body (msg_len_ : Nat) : List Act :=
  (if msg_len_ = 0 then [Act.handle_error, Act.read_header] else []) ++
    [Act.async_read msg_len_]

/-- The completion handler of `Session::read_header` for the error flag and the four bytes
read into `msg_len_`. -/
def Session.read_header_done (ec : Bool) (bytes : List Nat) : List Act :=
  if !ec then Session.read_body (ntohl bytes) else [Act.handle_error]

/-- The completion handler of `Session::read_body` for the error flag and the bytes read
into `buffer_`; `parse` is `json::parse`, which throws when it gives `none`. -/
def Session.read_body_done (parse : List Nat → Option Json) (ec : Bool)
    (buffer_ : List Nat) : Except Fault (List Act) :=
  if !ec then
    match parse buffer_ with
    | none => .error .json_error
    | some j => .ok [Act.handle_request j, Act.read_header]
  else .ok [Act.handle_error]

/-- The UTF-8 bytes of a code point. -/
def utf8 (c : Nat) : List Nat :=
  if c < 128 then [c]
  else if c < 2048 then [192 + c / 64, 128 + c % 64]
  else if c < 65536 then [224 + c / 4096, 128 + c / 64 % 64, 128 + c % 64]
  else [240 + c / 262144, 128 + c / 4096 % 64, 128 + c / 64 % 64, 128 + c % 64]

/-- The lower-case hexadecimal digit of a number below 16. -/
def hex_digit (n : Nat) : Nat :=
  if n < 10 then 48 + n else 87 + n

/-- One character inside a serialized string: the quote, the backslash and the control
characters are escaped, every other character is written in UTF-8. -/
def dump_char (c : Nat) : List Nat :=
  if c = 34 then [92, 34]
  else if c = 92 then [92, 92]
  else if c = 8 then [92, 98]
  else if c = 12 then [92, 102]
  else if c = 10 then [92, 110]
  else if c = 13 then [92, 114]
  else if c = 9 then [92, 116]
  else if c < 32 then [92, 117, 48, 48, hex_digit (c / 16), hex_digit (c % 16)]
  else utf8 c

/-- A serialized string, between quotes. -/
def dump_string (s : String) : List Nat :=
  [34] ++ s.data.flatMap (fun c => dump_char c.toNat) ++ [34]

/-- A serialized integer, in decimal. -/
def dump_int (n : Int) : List Nat :=
  (if n < 0 then [45] else []) ++ (Nat.toDigits 10 n.natAbs).map Char.toNat

mutual
/-- The compact serialization of a JSON value (no white space), as `dump()` without
arguments writes it. -/
def Json.dump : Json → List Nat
  | .null => [110, 117, 108, 108]
  | .bool true => [116, 114, 117, 101]
  | .bool false => [102, 97, 108, 115, 101]
  | .num n => dump_int n
  | .str s => dump_string s
  | .arr xs => [91] ++ dump_items xs ++ [93]
  | .obj kvs => [123] ++ dump_fields kvs ++ [125]
/-- The elements of an array, separated by commas. -/
def dump_items : List Json → List Nat
  | [] => []
  | x :: rest => x.dump ++ (if rest.isEmpty then [] else [44]) ++ dump_items rest
/-- The members of an object, separated by commas. -/
def dump_fields : List (String × Json) → List Nat
  | [] => []
  | (k, v) :: rest =>
    dump_string k ++ [58] ++ v.dump ++ (if rest.isEmpty then [] else [44]) ++ dump_fields rest
end

/-! ## Sequences of calls and further sample states -/

/-- The calls `add_user(username, password)` for the pairs of a list, in order. -/
def Database.add_users (na : Sodium) : Database → List (String × String) → Except Fault Database
  | db, [] => .ok db
  | db, (username, password) :: rest =>
    match db.add_user na username password with
    | .error f => .error f
    | .ok db1 => Database.add_users na db1 rest

/-- The tree `tree_slash` with the directory `/public/files/docs`. -/
def tree_docs : Tree :=
  { cwd := [],
    dirs := [["public"], ["public", "files"], ["public", "files", "docs"], ["private"]],
    files := [] }

/-- A fresh session of a server started with `--root /` on the tree `tree_docs`. -/
def session_docs : Session Tree :=
  Session.create "/" (some (Database.create .absent)) tree_docs

/-- An account store that holds alice with the password old. -/
def database_old : Database :=
  Database.save { file := .absent,
                  entries_ := [{ username := "alice", password_hash := "hash:old" }] }

/-- A response whose message is 4294967296 letters a. -/
def response_4GiB : Response :=
  { status := "OK", code := 200, message := String.mk (List.replicate 4294967296 'a'),
    hash := "" }

/-! ## `server/include/server.hpp`, `server/src/server.cpp` -/

/-- `fsutils::create_empty_file`. -/
def fsutils.create_empty_file {F : Type} (api : StdFs F) (fs : F) (path : String) : Bool × F :=
  if api.path_exists fs path then (false, fs)
  else
    let file := api.ofstream fs path
    (file.1, file.2)

/-- The data members of `Server` that `start` reads or writes (`db_` is null until it is
assigned), with the filesystem of the process. The content of `users.json` is kept in the
`Database` record. -/
structure Server (F : Type) where
  root_ : String
  db_ : Option Database
  fs : F

namespace Server

variable {F : Type}

/-- The constructor `Server::Server(io_context, port, root)`. -/
def create (root : String) (fs : F) : Server F :=
  { root_ := root, db_ := none, fs := fs }

/-- `Server::setup_root_directory`. -/
def setup_root_directory (api : StdFs F) (srv : Server F) : Except Fault (Server F) :=
  let srv1 : Server F :=
    if !fsutils.is_file api srv.fs (path_append srv.root_ "users.json") then
      { srv with
          fs := (fsutils.create_empty_file api srv.fs (path_append srv.root_ "users.json")).2,
          db_ := some (Database.create .blank) }
    else srv
  match (if !fsutils.is_directory api srv1.fs (path_append srv1.root_ "public") then
           Session.mkdir_ api srv1.fs (path_append srv1.root_ "public")
         else .ok srv1.fs) with
  | .error f => .error f
  | .ok fs2 =>
    match (if !fsutils.is_directory api fs2 (path_append srv1.root_ "private") then
             Session.mkdir_ api fs2 (path_append srv1.root_ "private")
           else .ok fs2) with
    | .error f => .error f
    | .ok fs3 => .ok { srv1 with fs := fs3 }

/-- The session `Server::accept` makes for a connection:
`std::make_shared<Session>(std::move(socket), root_, db_)`. -/
def accept (srv : Server F) : Session F :=
  Session.create srv.root_ srv.db_ srv.fs

/-- `Server::start` up to the first accepted connection: the root directory is set up and
the session of the connection is made. -/
def start (api : StdFs F) (srv : Server F) : Except Fault (Server F × Session F) :=
  match setup_root_directory api srv with
  | .error f => .error f
  | .ok srv1 => .ok (srv1, accept srv1)

end Server

/-! ## `client/include/client.hpp`, `client/src/client.cpp` -/

/-- The enum `ClientState`. -/
inductive ClientState where
  | LOGIN
  | READY
  | NEED_INPUT
  | AUTH
  | PROCESSING
  | EXIT
  | TRANSFERRING
deriving DecidableEq, Repr

/-- The data members of `Client` that the input and response handling reads or writes;
`password_guard_` tells whether a `TerminalNoEcho` is held. -/
structure Client where
  username_ : String
  state_ : ClientState
  password_guard_ : Bool
  exiting_ : Bool
deriving DecidableEq, Repr

/-- What a member function of `Client` leaves: the client, the requests handed to `send`
(through `to_json`) in order, and the texts written to `std::cout` in order. -/
abbrev ClientStep := Client × List Request × List String

/-- Whether a character is white space for the extraction `iss >> word`. -/
def is_space (c : Char) : Bool :=
  c.toNat = 32 || (9 ≤ c.toNat && c.toNat ≤ 13)

/-- The words of a line, as successive extractions `iss >> word` give them; `cur` is the
word being read, reversed. -/
def words_aux : List Char → List Char → List String
  | [], cur => if cur.isEmpty then [] else [String.mk cur.reverse]
  | c :: cs, cur =>
    if is_space c then
      (if cur.isEmpty then words_aux cs [] else String.mk cur.reverse :: words_aux cs [])
    else words_aux cs (c :: cur)

/-- The words of a line. -/
def words (line : String) : List String :=
  words_aux line.data []

namespace Client

/-- The constructor `Client::Client(username, io_context)` and the default member
initialisers. -/
def create (username : String) : Client :=
  { username_ := username, state_ := .LOGIN, password_guard_ := false, exiting_ := false }

/-- `Client::exit`: the exchange on `exiting_` lets only the first call through. -/
def exit (c : Client) : ClientStep :=
  if c.exiting_ then (c, [], [])
  else
    ({ c with exiting_ := true, state_ := .EXIT },
     [{ cmd := commands.EXIT, first_argument := "", second_argument := "", size := 0,
        hash := "" }], [])

/-- `Client::login`. -/
def login (c : Client) : ClientStep :=
  (c, [{ cmd := commands.LOGIN, first_argument := c.username_, second_argument := "",
         size := 0, hash := "" }], [])

/-- `Client::auth`. -/
def auth (c : Client) (password : String) : ClientStep :=
  ({ c with state_ := .PROCESSING },
   [{ cmd := commands.AUTH, first_argument := password, second_argument := "", size := 0,
      hash := "" }], [])

/-- `Client::need_input`. -/
def need_input (c : Client) (input : String) : ClientStep :=
  if !(input = "Y" || input = "n") then
    (c, [], [toString codes.BAD_REQUEST ++ ": Invalid input.\n"])
  else
    ({ c with state_ := .PROCESSING },
     [{ cmd := commands.NEED_INPUT, first_argument := input, second_argument := "", size := 0,
        hash := "" }], [])

/-- The end of every command sender: `send(j); state_ = ClientState::PROCESSING;`. -/
def send_request (c : Client) (req : Request) : ClientStep :=
  ({ c with state_ := .PROCESSING }, [req], [])

/-- `Client::cmd_list`; `iss` holds the words after the command. -/
def cmd_list (c : Client) (iss : List String) : ClientStep :=
  send_request c { cmd := commands.LIST, first_argument := iss.headD "",
                   second_argument := "", size := 0, hash := "" }

/-- `Client::cmd_upload`. -/
def cmd_upload (c : Client) (iss : List String) : ClientStep :=
  match iss with
  | [] => (c, [], [toString codes.BAD_REQUEST ++ ": Missing local path argument.\n"])
  | local_path :: rest =>
    send_request c { cmd := commands.UPLOAD, first_argument := local_path,
                     second_argument := rest.headD "", size := 0, hash := "" }

/-- `Client::cmd_download`. -/
def cmd_download (c : Client) (iss : List String) : ClientStep :=
  match iss with
  | [] => (c, [], [toString codes.BAD_REQUEST ++ ": Missing remote path argument.\n"])
  | remote_path :: rest =>
    send_request c { cmd := commands.UPLOAD, first_argument := remote_path,
                     second_argument := rest.headD "", size := 0, hash := "" }

/-- `Client::cmd_delete`. -/
def cmd_delete (c : Client) (iss : List String) : ClientStep :=
  match iss with
  | [] => (c, [], [toString codes.BAD_REQUEST ++ ": Missing path argument.\n"])
  | path :: _ =>
    send_request c { cmd := commands.LIST, first_argument := path, second_argument := "",
                     size := 0, hash := "" }

/-- The common shape of `Client::cmd_cd`, `cmd_mkdir` and `cmd_rmdir`: one path word, sent
under the command `cmd`. -/
def cmd_one_path (cmd : String) (c : Client) (iss : List String) : ClientStep :=
  match iss with
  | [] => (c, [], [toString codes.BAD_REQUEST ++ ": Missing path argument.\n"])
  | path :: _ =>
    send_request c { cmd := cmd, first_argument := path, second_argument := "", size := 0,
                     hash := "" }

/-- `Client::cmd_cd`. -/
def cmd_cd (c : Client) (iss : List String) : ClientStep :=
  cmd_one_path commands.CD c iss

/-- `Client::cmd_mkdir`. -/
def cmd_mkdir (c : Client) (iss : List String) : ClientStep :=
  cmd_one_path commands.MKDIR c iss

/-- `Client::cmd_rmdir`. -/
def cmd_rmdir (c : Client) (iss : List String) : ClientStep :=
  cmd_one_path commands.RMDIR c iss

/-- The common shape of `Client::cmd_move`, `cmd_copy` and `cmd_sync`: two path words, sent
under the command `cmd`. -/
def cmd_two_paths (cmd : String) (c : Client) (iss : List String) : ClientStep :=
  match iss with
  | source_path :: dest_path :: _ =>
    send_request c { cmd := cmd, first_argument := source_path,
                     second_argument := dest_path, size := 0, hash := "" }
  | _ =>
    (c, [], [toString codes.BAD_REQUEST ++ ": Missing source or destination path argument.\n"])

/-- `Client::cmd_move`. -/
def cmd_move (c : Client) (iss : List String) : ClientStep :=
  cmd_two_paths commands.MOVE c iss

/-- `Client::cmd_copy`. -/
def cmd_copy (c : Client) (iss : List String) : ClientStep :=
  cmd_two_paths commands.COPY c iss

/-- `Client::cmd_sync`. -/
def cmd_sync (c : Client) (iss : List String) : ClientStep :=
  cmd_two_paths commands.SYNC c iss

/-- The keys of the table `commands_`, in the order of the constructor. -/
def command_names : List String :=
  ["LIST", "HELP", "UPLOAD", "DOWNLOAD", "DELETE", "CD", "MKDIR", "RMDIR", "MOVE", "COPY",
   "SYNC"]

/-- `Client::cmd_help`: one line per key of `commands_`, then the syntax line. -/
def cmd_help (c : Client) (_iss : List String) : ClientStep :=
  (c, [], command_names.map (fun key => key ++ "\n") ++
    ["The syntax of filesystem commands is: \"Command\" \"what\" \"where\".\n"])

/-- The table `commands_` filled by the constructor of `Client`. -/
def commands_ : List (String × (Client → List String → ClientStep)) :=
  [ ("LIST", cmd_list),
    ("HELP", cmd_help),
    ("UPLOAD", cmd_upload),
    ("DOWNLOAD", cmd_download),
    ("DELETE", cmd_delete),
    ("CD", cmd_cd),
    ("MKDIR", cmd_mkdir),
    ("RMDIR", cmd_rmdir),
    ("MOVE", cmd_move),
    ("COPY", cmd_copy),
    ("SYNC", cmd_sync) ]

/-- The lookup `commands_.find(cmd)`. -/
def find_command (cmd : String) :
    List (String × (Client → List String → ClientStep)) →
      Option (Client → List String → ClientStep)
  | [] => none
  | (k, h) :: rest => if k = cmd then some h else find_command cmd rest

/-- `Client::handle_request`. -/
def handle_request (c : Client) (line : String) : ClientStep :=
  if line = commands.EXIT then exit c
  else if c.state_ = .AUTH then auth { c with password_guard_ := false } line
  else if c.state_ = .READY then
    let cmd := (words line).headD ""
    match find_command cmd commands_ with
    | none =>
      (c, [], [toString codes.BAD_REQUEST ++ ": Invalid command \"" ++ cmd ++ "\".\n", "> "])
    | some handler => handler c (words line).tail
  else if c.state_ = .NEED_INPUT then (c, [], [])
  else if c.state_ = .LOGIN then login c
  else if c.state_ = .PROCESSING then (c, [], ["Waiting for server...\n"])
  else (c, [], [])

/-- `Client::handle_response`. -/
def handle_response (c : Client) (j : Json) : Except Fault ClientStep :=
  match Response.from_json j with
  | .error f => .error f
  | .ok res =>
    if res.status = statuses.AUTH then
      .ok ({ c with state_ := .AUTH, password_guard_ := true }, [],
           [toString res.code ++ ": " ++ res.message ++ "\n", "Password: "])
    else if res.status = statuses.NEED_INPUT then
      .ok ({ c with state_ := .NEED_INPUT }, [],
           [toString res.code ++ ": " ++ res.message ++ "\n", "> "])
    else if res.status = statuses.ERROR then
      .ok ({ c with state_ := .READY }, [],
           [toString res.code ++ ": " ++ res.message ++ "\n", "> "])
    else if res.status = statuses.OK then
      .ok ({ c with state_ := .READY }, [],
           [toString res.code ++ ": " ++ res.message ++ "\n", "> "])
    else if res.status = statuses.CONFLICT then
      .ok (c, [], [toString res.code ++ ": " ++ res.message ++ "\n"])
    else if res.status = statuses.BUSY then
      .ok ({ c with state_ := .PROCESSING }, [], ["Server is busy.\n"])
    else .ok (c, [], [])

end Client

/-! ## Sample states with files, a users file and a traversing username -/

/-- The tree `tree_docs` with the regular files `/public/files/a.txt` and
`/private/notes.txt`. -/
def tree_files : Tree :=
  { cwd := [],
    dirs := [["public"], ["public", "files"], ["public", "files", "docs"], ["private"]],
    files := [(["public", "files", "a.txt"], [104, 105]), (["private", "notes.txt"], [110])] }

/-- The READY session with sandbox `public/files` on the tree `tree_files`. -/
def session_files : Session Tree :=
  { session_public with fs := tree_files }

/-- A server directory `/srv` (also the working directory) in which `users.json` already
exists, as a second start of the server finds it. -/
def tree_users : Tree :=
  { cwd := ["srv"],
    dirs := [["srv"], ["srv", "public"], ["srv", "private"]],
    files := [(["srv", "users.json"], [])] }

/-- An empty server directory `/srv` (also the working directory), as the first start of
the server finds it. -/
def tree_first : Tree :=
  { cwd := ["srv"], dirs := [["srv"]], files := [] }

/-- The session of `--root /srv` in state AUTH for the new username `../evil`. -/
def session_evil : Session Tree :=
  { session_srv with username_ := "../evil", state_ := SessionSate.AUTH }

/-- A client in state READY. -/
def client_ready : Client :=
  { Client.create "alice" with state_ := ClientState.READY }

/-- A tree, the locations of its FIFOs, and its symbolic links with the location each one
points to. -/
structure Posix where
  tree : Tree
  fifos : List (List String)
  links : List (List String × List String)
deriving DecidableEq, Repr

namespace Posix

/-- Whether the location `ns` is a FIFO. -/
def fifo_at (x : Posix) (ns : List String) : Bool :=
  x.fifos.contains ns

/-- Whether the location `ns` is a symbolic link. -/
def link_at (x : Posix) (ns : List String) : Bool :=
  x.links.any (fun l => l.1 == ns)

/-- The location a chain of symbolic links starting at `ns` ends at; `fuel` bounds the
chain. -/
def follow (x : Posix) : Nat → List String → List String
  | 0, ns => ns
  | fuel + 1, ns =>
    match x.links.find? (fun l => l.1 == ns) with
    | some l => follow x fuel l.2
    | none => ns

/-- One name of a path walked from the location `acc`: a symbolic link reached on the way is
followed. -/
def step (x : Posix) (acc : List String) (n : String) : List String :=
  if n = "" ∨ n = "." then acc
  else if n = ".." then acc.dropLast
  else x.follow x.links.length (acc ++ [n])

/-- The location a path denotes, symbolic links followed. -/
def locate (x : Posix) (p : String) : List String :=
  (names p).foldl x.step (if is_absolute p then [] else x.tree.cwd)

/-- The location of the entry a path names: links are followed in every name but the
last. -/
def entry (x : Posix) (p : String) : List String :=
  let parent := (names p).dropLast.foldl x.step (if is_absolute p then [] else x.tree.cwd)
  match (names p).getLast? with
  | none => parent
  | some n =>
    if n = "" ∨ n = "." then parent else if n = ".." then parent.dropLast else parent ++ [n]

/-- The absolute path of a location; the empty path stays empty. -/
def path_of (p : String) (ns : List String) : String :=
  if p = "" then "" else "/" ++ join_names ns

/-- The link-free absolute path of what `p` denotes. -/
def real (x : Posix) (p : String) : String :=
  path_of p (x.locate p)

/-- The link-free absolute path of the entry `p` names. -/
def real_entry (x : Posix) (p : String) : String :=
  path_of p (x.entry p)

/-- The result of a call on the tree, with the other entries as they were. -/
def with_tree {α : Type} (x : Posix) (r : α × Tree) : α × Posix :=
  (r.1, { x with tree := r.2 })

/-- The filesystem without the FIFO or the link at `e`. -/
def without (x : Posix) (e : List String) : Posix :=
  { x with fifos := x.fifos.filter (fun q => q != e),
           links := x.links.filter (fun l => l.1 != e) }

/-- Creation of `p` and of its missing parents; throws when an entry that is not a directory
is in the way. -/
def create_directories (x : Posix) (p : String) : Option (Bool × Posix) :=
  if (List.inits (x.locate p)).tail.any (fun q => x.fifo_at q || x.link_at q) then none
  else (x.tree.create_directories (x.real p)).map x.with_tree

/-- Removal of the entry `p` names with everything below it; the count of removed
entries. -/
def remove_all (x : Posix) (p : String) : Option (Nat × Posix) :=
  let e := x.entry p
  if p = "" then some (0, x)
  else if x.fifo_at e || x.link_at e then some (1, x.without e)
  else
    (x.tree.remove_all (x.real_entry p)).map (fun r =>
      (r.1 + (x.fifos.filter (Tree.below e)).length +
         (x.links.filter (fun l => Tree.below e l.1)).length,
       { tree := r.2, fifos := x.fifos.filter (fun q => !Tree.below e q),
         links := x.links.filter (fun l => !Tree.below e l.1) }))

/-- Removal of one entry that is not a directory, or of one empty directory. -/
def remove (x : Posix) (p : String) : Option (Bool × Posix) :=
  let e := x.entry p
  if p = "" then some (false, x)
  else if x.fifo_at e || x.link_at e then some (true, x.without e)
  else if x.fifos.any (Tree.below e) || x.links.any (fun l => Tree.below e l.1) then none
  else (x.tree.remove (x.real_entry p)).map x.with_tree

/-- The same removal reporting through an `error_code`. -/
def remove_ec (x : Posix) (p : String) : Bool × Posix :=
  match x.remove p with
  | some r => (false, r.2)
  | none => (true, x)

/-- Copy of a regular file; an existing destination is an error unless it is a regular file
and `overwrite` is set. -/
def copy_file_ec (x : Posix) (src dest : String) (overwrite : Bool) : Bool × Posix :=
  if x.fifo_at (x.locate dest) then (true, x)
  else x.with_tree (x.tree.copy_file_ec (x.real src) (x.real dest) overwrite)

/-- Renaming as `rename(2)` does it: the entry `src` names (a symbolic link itself, not what
it points to) takes the place `dest` names. An entry at the destination that is not a
directory is replaced when the source is not a directory; a directory replaces only an empty
directory. -/
def rename_ec (x : Posix) (src dest : String) : Bool × Posix :=
  let a := x.entry src
  let d := x.entry dest
  if src = "" ∨ dest = "" ∨ !x.tree.dir_at d.dropLast then (true, x)
  else if x.fifo_at a || x.link_at a then
    if a = d then (false, x)
    else if x.tree.dir_at d then (true, x)
    else
      (false,
       { tree := { x.tree with files := x.tree.files.filter (fun f => f.1 != d) },
         fifos := (x.fifos.filter (fun q => q != d)).map (fun q => if q = a then d else q),
         links := (x.links.filter (fun l => l.1 != d)).map
           (fun l => if l.1 = a then (d, l.2) else l) })
  else if x.fifo_at d || x.link_at d then
    if x.tree.file_at a then
      (x.without d).with_tree (x.tree.rename_ec (x.real_entry src) (x.real_entry dest))
    else (true, x)
  else
    let r := x.tree.rename_ec (x.real_entry src) (x.real_entry dest)
    if r.1 || x.fifos.any (Tree.below d) || x.links.any (fun l => Tree.below d l.1) then (true, x)
    else
      let move := fun (q : List String) => if Tree.below a q then d ++ q.drop a.length else q
      (false, { tree := r.2, fifos := x.fifos.map move,
                links := x.links.map (fun l => (move l.1, l.2)) })

/-- Opening for reading succeeds on every existing entry. -/
def ifstream (x : Posix) (p : String) : Bool :=
  x.tree.ifstream (x.real p) || (p != "" && x.fifo_at (x.locate p))

/-- Opening for writing: a FIFO opens as it is; otherwise a regular file is created or
truncated in an existing directory. -/
def ofstream (x : Posix) (p : String) : Bool × Posix :=
  if p != "" && x.fifo_at (x.locate p) then (true, x)
  else x.with_tree (x.tree.ofstream (x.real p))

/-- The content of `src` written to the open file `dest`; what is written into a FIFO does
not change the filesystem. -/
def copy_stream (x : Posix) (src dest : String) : Posix :=
  if x.fifo_at (x.locate dest) then x
  else { x with tree := x.tree.copy_stream (x.real src) (x.real dest) }

/-- The entries of every kind at the locations accepted by `keep` below `dir`, as
`dir / names`. -/
def entries_of (x : Posix) (dir : String) (keep : Nat → Nat → Bool) : Option (List String) :=
  let ns := x.locate dir
  if dir = "" ∨ !x.tree.dir_at ns then none
  else
    some (((x.tree.dirs ++ x.tree.files.map Prod.fst ++ x.fifos ++ x.links.map Prod.fst).filter
      (fun q => Tree.below ns q && keep q.length ns.length)).map
        (fun q => path_append dir (join_names (q.drop ns.length))))

/-- The library calls on a `Posix` filesystem. -/
def api : StdFs Posix where
  elems := posix_elems
  lexically_normal := posix_lexically_normal
  weakly_canonical := fun x p => some (x.real p)
  relative := fun x p base => x.tree.relative (x.real p) (x.real base)
  path_exists := fun x p =>
    Tree.api.path_exists x.tree (x.real p) || (p != "" && x.fifo_at (x.locate p))
  is_regular_file := fun x p => Tree.api.is_regular_file x.tree (x.real p)
  is_directory := fun x p => Tree.api.is_directory x.tree (x.real p)
  create_directories := create_directories
  remove_all := remove_all
  remove := remove
  remove_ec := remove_ec
  copy_file_ec := copy_file_ec
  rename_ec := rename_ec
  ifstream := ifstream
  ofstream := ofstream
  copy_stream := copy_stream
  directory_iterator := fun x dir => x.entries_of dir (fun q n => q == n + 1)
  recursive_directory_iterator := fun x dir => x.entries_of dir (fun q n => q > n)
  file_size := fun x p => Tree.api.file_size x.tree (x.real p)
  last_write_time := fun x p => Tree.api.last_write_time x.tree (x.real p)
  hash_file := fun x p => Tree.api.hash_file x.tree (x.real p)

end Posix

/-- The tree of `--root /srv` with a FIFO at `/public` and the symbolic link `/srv/ln` to the
root directory. -/
def posix_srv : Posix :=
  { tree := tree_srv, fifos := [["public"]], links := [(["srv", "ln"], [])] }

/-- A fresh session of a server started with `--root /srv` on the filesystem `posix_srv`. -/
def session_fifo : Session Posix :=
  Session.create "/srv" (some (Database.create .absent)) posix_srv

/-! ## Shared lemmas -/

/-- The loop of `is_subpath` answers whether its first list is a prefix of its second. -/
theorem is_subpath_loop_iff (b s : List String) :
    fsutils.is_subpath_loop b s = true ↔ b <+: s := by
  induction b generalizing s with
  | nil => simp [fsutils.is_subpath_loop]
  | cons x xs ih =>
    cases s with
    | nil => simp [fsutils.is_subpath_loop]
    | cons y ys =>
      by_cases h : x = y
      · subst h
        simp [fsutils.is_subpath_loop, ih, List.cons_prefix_cons]
      · simp [fsutils.is_subpath_loop, h, List.cons_prefix_cons]

/-- What `fsutils::is_subpath` computes: the elements of its normalized SECOND argument are a
prefix of the elements of its normalized FIRST argument. -/
theorem is_subpath_iff {F : Type} (api : StdFs F) (fs : F) (sub base : String) :
    fsutils.is_subpath api fs sub base = true ↔
      api.elems (fsutils.normalize api fs base) <+: api.elems (fsutils.normalize api fs sub) := by
  simp [fsutils.is_subpath, is_subpath_loop_iff]

/-- `Database::load` leaves the file as it is. -/
theorem load_file {db db1 : Database} (h : db.load = .ok db1) : db1.file = db.file := by
  unfold Database.load at h
  split at h
  · cases h; rfl
  · cases h; rfl
  · cases h
  · split at h
    · cases h
    · split at h
      · cases h
      · cases h; rfl

/-- Loading again a table that was just loaded changes nothing. -/
theorem load_load {db db1 : Database} (h : db.load = .ok db1) : db1.load = .ok db1 := by
  have hf := load_file h
  unfold Database.load at h ⊢
  rw [hf]
  split at h
  · cases h; rfl
  · cases h; rfl
  · cases h
  · split at h
    · cases h
    · split at h
      · cases h
      · cases h
        simp [*]

/-! ## The claims -/

/-- C2 (the code at the failing input): for base `/a` and candidate `/a/b` the elements of
the normalized base are a prefix of the elements of the normalized candidate, yet
`is_subpath(base, candidate)` returns false; with the two arguments exchanged it returns
true. -/
theorem C2_is_subpath_base_first :
    Tree.api.elems (fsutils.normalize Tree.api tree_slash "/a") <+:
        Tree.api.elems (fsutils.normalize Tree.api tree_slash "/a/b") ∧
      fsutils.is_subpath Tree.api tree_slash "/a" "/a/b" = false ∧
      fsutils.is_subpath Tree.api tree_slash "/a/b" "/a" = true :=
  ⟨⟨["b"], by decide⟩, by decide, by decide⟩

/-- C5: in every state other than READY each of list, delete, cd, mkdir, rmdir, move and copy
returns the session unchanged (state, username, directories, account store and filesystem)
and writes the single response ERROR/503. -/
theorem C5_state_guard {F : Type} (api : StdFs F) (s : Session F) (req : Request)
    (h : s.state_ ≠ SessionSate.READY) :
    Session.list api s req = .ok (s, [Session.not_ready]) ∧
      Session.delete_file api s req = .ok (s, [Session.not_ready]) ∧
      Session.cd api s req = .ok (s, [Session.not_ready]) ∧
      Session.mkdir api s req = .ok (s, [Session.not_ready]) ∧
      Session.rmdir api s req = .ok (s, [Session.not_ready]) ∧
      Session.move api s req = .ok (s, [Session.not_ready]) ∧
      Session.copy api s req = .ok (s, [Session.not_ready]) ∧
      Session.not_ready.status = "ERROR" ∧ Session.not_ready.code = 503 := by
  simp [Session.list, Session.delete_file, Session.cd, Session.mkdir, Session.rmdir,
    Session.move, Session.copy, h, Session.not_ready, statuses.ERROR, codes.SERVICE_UNAVAILABLE]

/-- C5 at a fresh session (state LOGIN) and a MKDIR request. -/
theorem C5_state_guard_witness :
    session_srv.state_ ≠ SessionSate.READY ∧
      Session.mkdir Tree.api session_srv (request "MKDIR" "/srv/public/files/a" "") =
        .ok (session_srv, [Session.not_ready]) :=
  ⟨by decide,
   (C5_state_guard Tree.api session_srv (request "MKDIR" "/srv/public/files/a" "")
      (by decide)).2.2.2.1⟩

/-- The answer of `Database::user_exists` in terms of the table it loads. -/
theorem user_exists_eq {db db1 : Database} (username : String) (h : db.load = .ok db1) :
    db.user_exists username =
      .ok (db1.entries_.any (fun entry => entry.username == username), db1) := by
  simp [Database.user_exists, h]

/-- No entry of the table carries the name: the search of `user_exists` fails. -/
theorem any_username_false {es : List DatabaseEntry} {username : String}
    (h : ∀ e ∈ es, e.username ≠ username) :
    es.any (fun entry => entry.username == username) = false := by
  simp only [List.any_eq_false, beq_iff_eq]
  intro e he
  exact fun hc => h e he hc

/-- An entry of the table carries the name: the search of `user_exists` succeeds. -/
theorem any_username_true {es : List DatabaseEntry} {username : String}
    (h : ∃ e ∈ es, e.username = username) :
    es.any (fun entry => entry.username == username) = true := by
  simpa [List.any_eq_true] using h

/-- C6: the login handler in state LOGIN. An empty username gives OK/200 and state READY; a
non-empty username that no entry of the loaded account table carries gives NEED_INPUT/401
and state NEED_INPUT_REGISTER; a non-empty username that an entry carries gives AUTH/401 and
state AUTH. -/
theorem C6_login_transitions {F : Type} (api : StdFs F) (s : Session F) (req : Request)
    (h : s.state_ = SessionSate.LOGIN) :
    (req.first_argument = "" →
      Session.login api s req =
        .ok ({ s with user_dir_ := api.relative s.fs "/public/files" s.root_,
                      current_dir_ := api.relative s.fs "/public/files" s.root_,
                      username_ := "", state_ := SessionSate.READY },
             [{ status := "OK", code := 200,
                message := "No username provided. Operating in public mode.", hash := "" }])) ∧
    (∀ db db1 : Database, req.first_argument ≠ "" → s.db_ = some db → db.load = .ok db1 →
      (∀ e ∈ db1.entries_, e.username ≠ req.first_argument) →
      Session.login api s req =
        .ok ({ s with username_ := req.first_argument, db_ := some db1,
                      state_ := SessionSate.NEED_INPUT_REGISTER },
             [{ status := "NEED_INPUT", code := 401,
                message := "User does not exist. Do you want to register? (Y/n)",
                hash := "" }])) ∧
    (∀ db db1 : Database, req.first_argument ≠ "" → s.db_ = some db → db.load = .ok db1 →
      (∃ e ∈ db1.entries_, e.username = req.first_argument) →
      Session.login api s req =
        .ok ({ s with username_ := req.first_argument, db_ := some db1,
                      state_ := SessionSate.AUTH },
             [{ status := "AUTH", code := 401, message := "Please provide your password.",
                hash := "" }])) := by
  refine ⟨?_, ?_, ?_⟩
  · intro he
    simp [Session.login, h, he, statuses.OK, codes.OK]
  · intro db db1 hne hdb hload hno
    simp [Session.login, h, hne, Session.db_user_exists, hdb, user_exists_eq _ hload,
      any_username_false hno, statuses.NEED_INPUT, codes.UNAUTHORIZED]
  · intro db db1 hne hdb hload hyes
    simp [Session.login, h, hne, Session.db_user_exists, hdb, user_exists_eq _ hload,
      any_username_true hyes, statuses.AUTH, codes.UNAUTHORIZED]

/-- C6 at a fresh session and the unknown username alice. -/
theorem C6_login_transitions_witness :
    session_srv.state_ = SessionSate.LOGIN ∧
      Session.login Tree.api session_srv (request "LOGIN" "alice" "") =
        .ok ({ session_srv with username_ := "alice",
                                state_ := SessionSate.NEED_INPUT_REGISTER },
             [{ status := "NEED_INPUT", code := 401,
                message := "User does not exist. Do you want to register? (Y/n)",
                hash := "" }]) :=
  ⟨rfl, (C6_login_transitions Tree.api session_srv (request "LOGIN" "alice" "") rfl).2.1
    (Database.create .absent) (Database.create .absent) (by decide) rfl rfl
    (by intro e he; cases he)⟩

/-- The three branches of `Session::need_input` in state NEED_INPUT_REGISTER. The argument Y
gives AUTH/401 and state AUTH; the argument n gives OK/200, state READY and assigns
`fs::relative("/public/files", root_)` to user_dir and current_dir; every other argument
gives ERROR/400 and leaves the session as it is. -/
theorem need_input_register {F : Type} (api : StdFs F) (s : Session F) (req : Request)
    (h : s.state_ = SessionSate.NEED_INPUT_REGISTER) :
    (req.first_argument = "Y" →
      Session.need_input api s req =
        .ok ({ s with state_ := SessionSate.AUTH },
             [{ status := "AUTH", code := 401,
                message := "For registration, please provide a password.", hash := "" }])) ∧
    (req.first_argument = "n" →
      Session.need_input api s req =
        .ok ({ s with user_dir_ := api.relative s.fs "/public/files" s.root_,
                      current_dir_ := api.relative s.fs "/public/files" s.root_,
                      state_ := SessionSate.READY },
             [{ status := "OK", code := 200,
                message := "No registrartion. Operating in public mode.", hash := "" }])) ∧
    (req.first_argument ≠ "Y" → req.first_argument ≠ "n" →
      Session.need_input api s req =
        .ok (s, [{ status := "ERROR", code := 400,
                   message := "Invalid input for registration. Y/n expected.",
                   hash := "" }])) := by
  refine ⟨?_, ?_, ?_⟩
  · intro he
    simp [Session.need_input, h, he, statuses.AUTH, codes.UNAUTHORIZED]
  · intro he
    simp [Session.need_input, h, he, statuses.OK, codes.OK]
  · intro h1 h2
    simp [Session.need_input, h, h1, h2, statuses.ERROR, codes.BAD_REQUEST]

/-- C8 (the code at the failing input): a session of `--root /srv` in state
NEED_INPUT_REGISTER. The answer n gives OK/200 and state READY with user_dir = current_dir =
`../public/files`; that path denotes `/public/files`, which is not a directory, and not the
public directory `/srv/public/files` of the server. The answers Y and x follow the table:
AUTH/401 with state AUTH, and ERROR/400 with the session unchanged. -/
theorem C8_public_sandbox_off_root :
    Session.need_input Tree.api { session_srv with state_ := SessionSate.NEED_INPUT_REGISTER }
        (request "NEED_INPUT" "n" "") =
      .ok ({ session_srv with user_dir_ := "../public/files",
                              current_dir_ := "../public/files",
                              state_ := SessionSate.READY },
           [{ status := "OK", code := 200,
              message := "No registrartion. Operating in public mode.", hash := "" }]) ∧
      fsutils.normalize Tree.api tree_srv "../public/files" = "/public/files" ∧
      fsutils.is_directory Tree.api tree_srv "../public/files" = false ∧
      fsutils.normalize Tree.api tree_srv (path_append (path_append "/srv" "public") "files") =
        "/srv/public/files" ∧
      fsutils.is_directory Tree.api tree_srv
        (path_append (path_append "/srv" "public") "files") = true ∧
      Session.need_input Tree.api { session_srv with state_ := SessionSate.NEED_INPUT_REGISTER }
          (request "NEED_INPUT" "Y" "") =
        .ok ({ session_srv with state_ := SessionSate.AUTH },
             [{ status := "AUTH", code := 401,
                message := "For registration, please provide a password.", hash := "" }]) ∧
      Session.need_input Tree.api { session_srv with state_ := SessionSate.NEED_INPUT_REGISTER }
          (request "NEED_INPUT" "x" "") =
        .ok ({ session_srv with state_ := SessionSate.NEED_INPUT_REGISTER },
             [{ status := "ERROR", code := 400,
                message := "Invalid input for registration. Y/n expected.", hash := "" }]) :=
  ⟨rfl, rfl, rfl, rfl, rfl, rfl, rfl⟩

/-- The answer of `Database::validate_user` in terms of the table it loads. -/
theorem validate_user_eq {db db1 : Database} (na : Sodium) (username password : String)
    (h : db.load = .ok db1) :
    db.validate_user na username password =
      .ok (db1.entries_.any (fun entry =>
        entry.username == username && na.verify_password password entry.password_hash), db1) := by
  simp [Database.validate_user, h]

/-- The table `Database::add_user` leaves in terms of the table it loads. -/
theorem add_user_eq {db db1 : Database} (na : Sodium) (username password : String)
    (h : db.load = .ok db1) :
    db.add_user na username password =
      .ok (Database.save { db1 with
        entries_ := db1.entries_ ++
          [{ username := username, password_hash := na.hash_password password }] }) := by
  simp [Database.add_user, h]

/-- An entry carries the name and its hash verifies the password: `validate_user` succeeds. -/
theorem any_valid_true {es : List DatabaseEntry} {na : Sodium} {username password : String}
    (h : ∃ e ∈ es, e.username = username ∧ na.verify_password password e.password_hash = true) :
    es.any (fun entry =>
      entry.username == username && na.verify_password password entry.password_hash) = true := by
  simpa [List.any_eq_true] using h

/-- No entry with the name has a hash that verifies the password: `validate_user` fails. -/
theorem any_valid_false {es : List DatabaseEntry} {na : Sodium} {username password : String}
    (h : ∀ e ∈ es, e.username = username → na.verify_password password e.password_hash = false) :
    es.any (fun entry =>
      entry.username == username && na.verify_password password entry.password_hash) = false := by
  simp only [List.any_eq_false, Bool.and_eq_true, beq_iff_eq, not_and, Bool.not_eq_true]
  exact h

/-- `Session::setup_dir` touches the filesystem and the two directories only, and leaves
`user_dir_` and `current_dir_` equal. -/
theorem setup_dir_keeps {F : Type} {api : StdFs F} {s s' : Session F}
    (h : Session.setup_dir api s = .ok s') :
    s'.db_ = s.db_ ∧ s'.state_ = s.state_ ∧ s'.username_ = s.username_ ∧ s'.root_ = s.root_ ∧
      s'.current_dir_ = s'.user_dir_ ∧
      s'.user_dir_ = api.relative s'.fs ("/private/" ++ s.username_ ++ "/files") s.root_ := by
  unfold Session.setup_dir at h
  split at h
  · cases h
  · cases h
    simp [fsutils.relative]

/-- C9: the auth handler in state AUTH. An empty password gives AUTH/400 and leaves the
session (state and account store) as it is. A non-empty password for a username that no entry
of the loaded table carries appends the account, provisions the directories and gives OK/200
and state READY. A non-empty password that verifies against an entry with the username
provisions the directories and gives OK/200 and state READY. A non-empty password for a
stored username that verifies against none of its entries gives AUTH/401, the state stays
AUTH and the account file and table are the ones loaded. -/
theorem C9_auth_transitions {F : Type} (api : StdFs F) (na : Sodium) (s : Session F)
    (req : Request) (h : s.state_ = SessionSate.AUTH) :
    (req.first_argument = "" →
      Session.auth api na s req =
        .ok (s, [{ status := "AUTH", code := 400,
                   message := "Password cannot be empty. Try again.", hash := "" }])) ∧
    (∀ (db db1 : Database) (s' : Session F), req.first_argument ≠ "" → s.db_ = some db →
      db.load = .ok db1 → (∀ e ∈ db1.entries_, e.username ≠ s.username_) →
      Session.setup_dir api { s with db_ := some (Database.save { db1 with
          entries_ := db1.entries_ ++
            [{ username := s.username_,
               password_hash := na.hash_password req.first_argument }] }) } = .ok s' →
      Session.auth api na s req =
          .ok ({ s' with state_ := SessionSate.READY },
               [{ status := "OK", code := 200, message := "Registration successful.",
                  hash := "" }]) ∧
        s'.db_ = some (Database.save { db1 with
          entries_ := db1.entries_ ++
            [{ username := s.username_,
               password_hash := na.hash_password req.first_argument }] })) ∧
    (∀ (db db1 : Database) (s' : Session F), req.first_argument ≠ "" → s.db_ = some db →
      db.load = .ok db1 →
      (∃ e ∈ db1.entries_, e.username = s.username_ ∧
        na.verify_password req.first_argument e.password_hash = true) →
      Session.setup_dir api { s with db_ := some db1 } = .ok s' →
      Session.auth api na s req =
        .ok ({ s' with state_ := SessionSate.READY },
             [{ status := "OK", code := 200, message := "Authentication successful.",
                hash := "" }])) ∧
    (∀ db db1 : Database, req.first_argument ≠ "" → s.db_ = some db → db.load = .ok db1 →
      (∃ e ∈ db1.entries_, e.username = s.username_) →
      (∀ e ∈ db1.entries_, e.username = s.username_ →
        na.verify_password req.first_argument e.password_hash = false) →
      Session.auth api na s req =
          .ok ({ s with db_ := some db1 },
               [{ status := "AUTH", code := 401, message := "Invalid password. Try again.",
                  hash := "" }]) ∧
        ({ s with db_ := some db1 } : Session F).state_ = SessionSate.AUTH ∧
        db1.file = db.file) := by
  obtain ⟨root_, db_, state_, current_dir_, user_dir_, username_, fs⟩ := s
  simp only at h
  subst h
  have h : SessionSate.AUTH = SessionSate.AUTH := rfl
  refine ⟨?_, ?_, ?_, ?_⟩
  · intro he
    simp [Session.auth, h, he, statuses.AUTH, codes.BAD_REQUEST]
  · intro db db1 s' hne hdb hload hno hsetup
    refine ⟨?_, (setup_dir_keeps hsetup).1⟩
    dsimp only at hdb hno hsetup
    subst hdb
    simp [Session.auth, h, hne, Session.db_user_exists, user_exists_eq _ hload,
      user_exists_eq _ (load_load hload), any_username_false hno, Session.db_add_user,
      add_user_eq na _ _ (load_load hload), hsetup, statuses.OK, codes.OK]
  · intro db db1 s' hne hdb hload hyes hsetup
    dsimp only at hdb hyes hsetup
    subst hdb
    have hex : ∃ e ∈ db1.entries_, e.username = username_ := by
      obtain ⟨e, he, hu, _⟩ := hyes
      exact ⟨e, he, hu⟩
    simp [Session.auth, h, hne, Session.db_user_exists, user_exists_eq _ hload,
      any_username_true hex, Session.db_validate_user,
      validate_user_eq na _ _ (load_load hload), any_valid_true hyes, hsetup, statuses.OK,
      codes.OK]
  · intro db db1 hne hdb hload hex hbad
    refine ⟨?_, h, load_file hload⟩
    dsimp only at hdb hex hbad
    subst hdb
    simp [Session.auth, h, hne, Session.db_user_exists, user_exists_eq _ hload,
      any_username_true hex, Session.db_validate_user,
      validate_user_eq na _ _ (load_load hload), any_valid_false hbad, statuses.AUTH,
      codes.UNAUTHORIZED]

/-- C9 at the registration of alice with the password secret: the account is stored, her
directories are created under `/srv/private` and the session is READY. -/
theorem C9_auth_transitions_witness :
    session_alice.state_ = SessionSate.AUTH ∧
      Session.auth Tree.api sodium_plain session_alice (request "AUTH" "secret" "") =
        .ok ({ session_alice with db_ := some database_alice, fs := tree_srv_alice,
                                  user_dir_ := "../private/alice/files",
                                  current_dir_ := "../private/alice/files",
                                  state_ := SessionSate.READY },
             [{ status := "OK", code := 200, message := "Registration successful.",
                hash := "" }]) :=
  ⟨rfl, ((C9_auth_transitions Tree.api sodium_plain session_alice (request "AUTH" "secret" "")
    rfl).2.1 (Database.create .absent) (Database.create .absent)
    { session_alice with db_ := some database_alice, fs := tree_srv_alice,
                         user_dir_ := "../private/alice/files",
                         current_dir_ := "../private/alice/files" }
    (by decide) rfl rfl (by intro e he; cases he) rfl).1⟩

/-- C7 (the code at the failing input): on a fresh session whose store has no alice, the
requests LOGIN alice, NEED_INPUT Y, AUTH secret are answered NEED_INPUT/401, ERROR/400,
ERROR/400: the table `requests_` has no entry for NEED_INPUT and none for AUTH. The session
ends in NEED_INPUT_REGISTER and `/srv/private/alice/files` does not exist. -/
theorem C7_scenario_B_unknown_request :
    Session.handle_requests Tree.api session_srv
        [(request "LOGIN" "alice" "").to_json, (request "NEED_INPUT" "Y" "").to_json,
         (request "AUTH" "secret" "").to_json] =
      .ok ({ session_srv with username_ := "alice",
                              state_ := SessionSate.NEED_INPUT_REGISTER },
           [{ status := "NEED_INPUT", code := 401,
              message := "User does not exist. Do you want to register? (Y/n)", hash := "" },
            { status := "ERROR", code := 400, message := "Unknown request", hash := "" },
            { status := "ERROR", code := 400, message := "Unknown request", hash := "" }]) ∧
      (Session.find_handler "NEED_INPUT" (Session.requests_ Tree.api)).isNone = true ∧
      (Session.find_handler "AUTH" (Session.requests_ Tree.api)).isNone = true ∧
      Tree.api.is_directory tree_srv "/srv/private/alice/files" = false :=
  ⟨rfl, rfl, rfl, rfl⟩

/-- C4 (the code at the failing input): a fresh session of `--root /` handles LOGIN with an
empty username and then CD to `/`. Both are answered OK/200; afterwards the state is READY,
user_dir is `public/files` and current_dir is `/`, and the elements of the normalized
user_dir are not a prefix of the elements of the normalized current_dir. -/
theorem C4_cd_leaves_user_dir :
    Session.handle_requests Tree.api session_slash
        [(request "LOGIN" "" "").to_json, (request "CD" "/" "").to_json] =
      .ok ({ session_public with current_dir_ := "/" },
           [{ status := "OK", code := 200,
              message := "No username provided. Operating in public mode.", hash := "" },
            { status := "OK", code := 200, message := "Directory changed.", hash := "" }]) ∧
      session_public.user_dir_ = "public/files" ∧
      ¬ (Tree.api.elems (fsutils.normalize Tree.api tree_slash "public/files") <+:
          Tree.api.elems (fsutils.normalize Tree.api tree_slash "/")) :=
  ⟨rfl, rfl, by rw [← is_subpath_loop_iff]; decide⟩

/-- C10 (the code at the failing input): with the root `/srv` a login with an empty username
enters READY with user_dir = current_dir = `../public/files`, which denotes `/public/files`
and not `/srv/public/files`; the registration of alice creates `/srv/private/alice/files`
and enters READY with user_dir = current_dir = `../private/alice/files`, which denotes
`/private/alice/files`. -/
theorem C10_sandbox_root_srv :
    Session.login Tree.api session_srv (request "LOGIN" "" "") =
      .ok ({ session_srv with user_dir_ := "../public/files",
                              current_dir_ := "../public/files",
                              state_ := SessionSate.READY },
           [{ status := "OK", code := 200,
              message := "No username provided. Operating in public mode.", hash := "" }]) ∧
      fsutils.normalize Tree.api tree_srv "../public/files" = "/public/files" ∧
      fsutils.normalize Tree.api tree_srv (path_append (path_append "/srv" "public") "files") =
        "/srv/public/files" ∧
      (Session.auth Tree.api sodium_plain session_alice (request "AUTH" "secret" "")).toOption.map
          (fun r => (r.1.state_, r.1.user_dir_, r.1.current_dir_, r.1.fs)) =
        some (SessionSate.READY, "../private/alice/files", "../private/alice/files",
              tree_srv_alice) ∧
      fsutils.normalize Tree.api tree_srv_alice "../private/alice/files" =
        "/private/alice/files" ∧
      fsutils.normalize Tree.api tree_srv_alice
          (path_append (path_append (path_append "/srv" "private") "alice") "files") =
        "/srv/private/alice/files" :=
  ⟨rfl, rfl, rfl, rfl, rfl, rfl⟩

/-- What the handlers do with the result of their sandbox test: in state READY, when
`is_subpath(user_dir, p)` returns false for a path argument `p`, the handler returns the
session unchanged and writes one ERROR response; its code is 403 when the checks made before
the sandbox test pass, and 400 or 412 (the first failing earlier check) otherwise. -/
theorem sandbox_test_false {F : Type} (api : StdFs F) (s : Session F) (req : Request)
    (h : s.state_ = SessionSate.READY) :
    (req.first_argument ≠ "" →
      fsutils.is_subpath api s.fs s.user_dir_ req.first_argument = false →
      ∃ r, Session.list api s req = .ok (s, [r]) ∧ r.status = "ERROR" ∧
        (r.code = 403 ∨ r.code = 400) ∧
        (fsutils.is_directory api s.fs req.first_argument = true → r.code = 403)) ∧
    (fsutils.is_subpath api s.fs s.user_dir_ req.first_argument = false →
      ∃ r, Session.delete_file api s req = .ok (s, [r]) ∧ r.status = "ERROR" ∧
        (r.code = 403 ∨ r.code = 400) ∧
        (fsutils.is_file api s.fs req.first_argument = true → r.code = 403)) ∧
    (fsutils.is_subpath api s.fs s.user_dir_ req.first_argument = false →
      ∃ r, Session.cd api s req = .ok (s, [r]) ∧ r.status = "ERROR" ∧
        (r.code = 403 ∨ r.code = 400) ∧
        (fsutils.is_directory api s.fs req.first_argument = true → r.code = 403)) ∧
    (fsutils.is_subpath api s.fs s.user_dir_ req.first_argument = false →
      ∃ r, Session.mkdir api s req = .ok (s, [r]) ∧ r.status = "ERROR" ∧
        (r.code = 403 ∨ r.code = 400 ∨ r.code = 412) ∧
        (req.first_argument ≠ "" → fsutils.is_directory api s.fs req.first_argument = false →
          r.code = 403)) ∧
    (fsutils.is_subpath api s.fs s.user_dir_ req.first_argument = false →
      ∃ r, Session.rmdir api s req = .ok (s, [r]) ∧ r.status = "ERROR" ∧
        (r.code = 403 ∨ r.code = 400) ∧
        (req.first_argument ≠ "" → fsutils.is_directory api s.fs req.first_argument = true →
          r.code = 403)) ∧
    (fsutils.is_subpath api s.fs s.user_dir_ req.first_argument = false ∨
        fsutils.is_subpath api s.fs s.user_dir_ req.second_argument = false →
      ∃ r, Session.move api s req = .ok (s, [r]) ∧ r.status = "ERROR" ∧
        (r.code = 403 ∨ r.code = 400 ∨ r.code = 412) ∧
        (req.first_argument ≠ "" → req.second_argument ≠ "" →
          Session.incorrect_paths api s.fs req = false → r.code = 403)) ∧
    (fsutils.is_subpath api s.fs s.user_dir_ req.first_argument = false ∨
        fsutils.is_subpath api s.fs s.user_dir_ req.second_argument = false →
      ∃ r, Session.copy api s req = .ok (s, [r]) ∧ r.status = "ERROR" ∧
        (r.code = 403 ∨ r.code = 400 ∨ r.code = 412) ∧
        (req.first_argument ≠ "" → req.second_argument ≠ "" →
          Session.incorrect_paths api s.fs req = false → r.code = 403)) := by
  refine ⟨?_, ?_, ?_, ?_, ?_, ?_, ?_⟩
  · intro hne hsub
    by_cases hd : fsutils.is_directory api s.fs req.first_argument = true <;>
      simp [Session.list, h, hne, hsub, hd, Session.access_denied, statuses.ERROR,
        codes.FORBIDDEN, codes.BAD_REQUEST]
  · intro hsub
    by_cases hd : fsutils.is_file api s.fs req.first_argument = true <;>
      simp [Session.delete_file, h, hsub, hd, Session.access_denied, statuses.ERROR,
        codes.FORBIDDEN, codes.BAD_REQUEST]
  · intro hsub
    by_cases hd : fsutils.is_directory api s.fs req.first_argument = true <;>
      simp [Session.cd, h, hsub, hd, Session.access_denied, statuses.ERROR,
        codes.FORBIDDEN, codes.BAD_REQUEST]
  · intro hsub
    by_cases hne : req.first_argument = "" <;>
      by_cases hd : fsutils.is_directory api s.fs req.first_argument = true <;>
      simp [Session.mkdir, h, hne, hsub, hd, Session.access_denied, statuses.ERROR,
        codes.FORBIDDEN, codes.BAD_REQUEST, codes.PRECONDITION_FAILED]
  · intro hsub
    by_cases hne : req.first_argument = "" <;>
      by_cases hd : fsutils.is_directory api s.fs req.first_argument = true <;>
      simp [Session.rmdir, h, hne, hsub, hd, Session.access_denied, statuses.ERROR,
        codes.FORBIDDEN, codes.BAD_REQUEST]
  · intro hsub
    by_cases h1 : req.first_argument = "" <;> by_cases h2 : req.second_argument = "" <;>
      by_cases hp : Session.incorrect_paths api s.fs req = true <;>
      rcases hsub with hsub | hsub <;>
      simp [Session.move, h, h1, h2, hp, hsub, Session.access_denied, statuses.ERROR,
        codes.FORBIDDEN, codes.BAD_REQUEST, codes.PRECONDITION_FAILED]
  · intro hsub
    by_cases h1 : req.first_argument = "" <;> by_cases h2 : req.second_argument = "" <;>
      by_cases hp : Session.incorrect_paths api s.fs req = true <;>
      rcases hsub with hsub | hsub <;>
      simp [Session.copy, h, h1, h2, hp, hsub, Session.access_denied, statuses.ERROR,
        codes.FORBIDDEN, codes.BAD_REQUEST, codes.PRECONDITION_FAILED]

/-- C1 (the code at the failing input): in the READY session with sandbox `public/files`
(root `/`), the path `/public` is not contained in user_dir, yet rmdir of it is answered
OK/200 and removes `/public` with all it holds; the same from a fresh session through
`handle_request`. With the root `/srv`, after a login with an empty username, mkdir of
`/public`, a path outside user_dir, is answered OK/200 and creates the directory. A path
that is neither inside user_dir nor above it, such as `/tmp/x`, is answered ERROR/403. -/
theorem C1_rmdir_above_sandbox :
    session_public.state_ = SessionSate.READY ∧
      ¬ (Tree.api.elems (fsutils.normalize Tree.api session_public.fs session_public.user_dir_)
          <+: Tree.api.elems (fsutils.normalize Tree.api session_public.fs "/public")) ∧
      Session.rmdir Tree.api session_public (request "RMDIR" "/public" "") =
        .ok ({ session_public with fs := { cwd := [], dirs := [["private"]], files := [] } },
             [{ status := "OK", code := 200, message := "Directory deleted.", hash := "" }]) ∧
      Session.handle_requests Tree.api session_slash
          [(request "LOGIN" "" "").to_json, (request "RMDIR" "/public" "").to_json] =
        .ok ({ session_public with fs := { cwd := [], dirs := [["private"]], files := [] } },
             [{ status := "OK", code := 200,
                message := "No username provided. Operating in public mode.", hash := "" },
              { status := "OK", code := 200, message := "Directory deleted.", hash := "" }]) ∧
      (Session.handle_requests Tree.api session_srv
          [(request "LOGIN" "" "").to_json, (request "MKDIR" "/public" "").to_json]).toOption.map
          (fun r => (r.1.user_dir_, r.1.fs.dirs, r.2.map (fun res => res.code))) =
        some ("../public/files",
              [["srv"], ["srv", "public"], ["srv", "public", "files"], ["srv", "private"],
               ["public"]],
              [200, 200]) ∧
      ¬ (Tree.api.elems (fsutils.normalize Tree.api tree_srv "../public/files") <+:
          Tree.api.elems (fsutils.normalize Tree.api tree_srv "/public")) ∧
      Session.mkdir Tree.api session_public (request "MKDIR" "/tmp/x" "") =
        .ok (session_public,
             [{ status := "ERROR", code := 403, message := "Access denied.", hash := "" }]) := by
  refine ⟨rfl, ?_, rfl, rfl, rfl, ?_, rfl⟩
  · rw [← is_subpath_loop_iff]
    decide
  · rw [← is_subpath_loop_iff]
    decide

/-- C3 (counterexample): in the READY session with sandbox `public/files`, rmdir of
`public/files` (whose normalized form is that of user_dir) is answered OK/200 and the
directory `/public/files` is removed. -/
theorem C3_counterexample_rmdir_user_dir :
    session_public.state_ = SessionSate.READY ∧
      fsutils.normalize Tree.api session_public.fs "public/files" =
        fsutils.normalize Tree.api session_public.fs session_public.user_dir_ ∧
      Session.rmdir Tree.api session_public (request "RMDIR" "public/files" "") =
        .ok ({ session_public with
                 fs := { cwd := [], dirs := [["public"], ["private"]], files := [] } },
             [{ status := "OK", code := 200, message := "Directory deleted.", hash := "" }]) :=
  ⟨rfl, rfl, rfl⟩

/-- C3 (amended): the sandbox prefix is not strict. A path argument whose normalized form
equals the normalized user_dir passes the sandbox test; in state READY rmdir of such a path
(non-empty, an existing directory) calls the removal and answers OK/200 when it removed
something and ERROR/500 when it removed nothing. -/
theorem C3_prefix_not_strict {F : Type} (api : StdFs F) (s : Session F) (req : Request)
    (hn : fsutils.normalize api s.fs req.first_argument =
      fsutils.normalize api s.fs s.user_dir_) :
    fsutils.is_subpath api s.fs s.user_dir_ req.first_argument = true ∧
      (s.state_ = SessionSate.READY → req.first_argument ≠ "" →
        fsutils.is_directory api s.fs req.first_argument = true →
        Session.rmdir api s req =
          match fsutils.rmdir api s.fs req.first_argument with
          | .error f => .error f
          | .ok (removed, fs1) =>
            .ok ({ s with fs := fs1 },
                 [if removed then
                    { status := "OK", code := 200, message := "Directory deleted.", hash := "" }
                  else
                    { status := "ERROR", code := 500, message := "Cannot delete directory.",
                      hash := "" }])) := by
  have hsub : fsutils.is_subpath api s.fs s.user_dir_ req.first_argument = true := by
    rw [is_subpath_iff, hn]
  refine ⟨hsub, ?_⟩
  intro h hne hd
  simp only [Session.rmdir, h, hne, hd, hsub]
  cases hr : fsutils.rmdir api s.fs req.first_argument with
  | error f => simp
  | ok r =>
    obtain ⟨removed, fs1⟩ := r
    cases removed <;>
      simp [statuses.OK, statuses.ERROR, codes.OK, codes.INTERNAL_SERVER_ERROR]

/-- C3 (amended) at rmdir of `public/files` in the READY session with sandbox
`public/files`. -/
theorem C3_prefix_not_strict_witness :
    fsutils.normalize Tree.api session_public.fs "public/files" =
        fsutils.normalize Tree.api session_public.fs session_public.user_dir_ ∧
      fsutils.is_subpath Tree.api session_public.fs session_public.user_dir_ "public/files" =
        true :=
  ⟨rfl, (C3_prefix_not_strict Tree.api session_public (request "RMDIR" "public/files" "")
    rfl).1⟩

/-- C11 (the code at the failing input): a fresh session (state LOGIN) that handles an EXIT
request is returned unchanged, still in state LOGIN, and nothing is written; in every state
`Session::exit` returns the session as it is. -/
theorem C11_exit_keeps_state :
    Session.handle_request Tree.api session_srv (request "EXIT" "" "").to_json =
        .ok (session_srv, []) ∧
      session_srv.state_ = SessionSate.LOGIN ∧
      ∀ (s : Session Tree) (req : Request), Session.exit s req = .ok (s, []) :=
  ⟨rfl, rfl, fun _ _ => rfl⟩

/-- The lookup in a table fails for a command that is none of its keys. -/
theorem find_handler_none {F : Type} (cmd : String)
    (table : List (String × (Session F → Request → Outcome F)))
    (h : cmd ∉ table.map Prod.fst) : Session.find_handler cmd table = none := by
  induction table with
  | nil => rfl
  | cons kh rest ih =>
    obtain ⟨k, handler⟩ := kh
    simp only [List.map_cons, List.mem_cons, not_or] at h
    have hk : ¬ k = cmd := fun hk => h.1 hk.symm
    simp [Session.find_handler, hk, ih h.2]

/-- C12: a request that decodes to a command that is no key of the dispatch table (LIST,
UPLOAD, DOWNLOAD, DELETE, CD, MKDIR, RMDIR, MOVE, COPY, SYNC, EXIT, LOGIN) is answered
ERROR/400 and the session (state, username, user_dir, current_dir, store and filesystem) is
returned unchanged. -/
theorem C12_unknown_request {F : Type} (api : StdFs F) (s : Session F) (j : Json)
    (req : Request) (hj : Request.from_json j = .ok req)
    (hcmd : req.cmd ∉ (Session.requests_ api).map Prod.fst) :
    Session.handle_request api s j =
        .ok (s, [{ status := "ERROR", code := 400, message := "Unknown request",
                   hash := "" }]) ∧
      (Session.requests_ api).map Prod.fst =
        ["LIST", "UPLOAD", "DOWNLOAD", "DELETE", "CD", "MKDIR", "RMDIR", "MOVE", "COPY",
         "SYNC", "EXIT", "LOGIN"] := by
  refine ⟨?_, rfl⟩
  simp [Session.handle_request, hj, Session.dispatch, find_handler_none _ _ hcmd,
    statuses.ERROR, codes.BAD_REQUEST]

/-- C12 at a fresh session and the command FOO. -/
theorem C12_unknown_request_witness :
    Request.from_json (request "FOO" "x" "y").to_json = .ok (request "FOO" "x" "y") ∧
      (request "FOO" "x" "y").cmd ∉ (Session.requests_ Tree.api).map Prod.fst ∧
      Session.handle_request Tree.api session_srv (request "FOO" "x" "y").to_json =
        .ok (session_srv, [{ status := "ERROR", code := 400, message := "Unknown request",
                             hash := "" }]) :=
  ⟨rfl, by decide,
   (C12_unknown_request Tree.api session_srv (request "FOO" "x" "y").to_json
     (request "FOO" "x" "y") rfl (by decide)).1⟩

/-- C13 (the code at the failing input): a fresh session (state LOGIN, not READY) that
handles UPLOAD, DOWNLOAD and SYNC requests writes no response at all and is returned
unchanged; in every state the three handlers return the session as it is and write
nothing. -/
theorem C13_transfer_stubs_silent :
    session_srv.state_ ≠ SessionSate.READY ∧
      Session.handle_requests Tree.api session_srv
          [(request "UPLOAD" "a.txt" "").to_json, (request "DOWNLOAD" "a.txt" "").to_json,
           (request "SYNC" "" "").to_json] =
        .ok (session_srv, []) ∧
      ∀ (s : Session Tree) (req : Request),
        Session.upload s req = .ok (s, []) ∧ Session.download s req = .ok (s, []) ∧
          Session.sync s req = .ok (s, []) :=
  ⟨by decide, rfl, fun _ _ => ⟨rfl, rfl, rfl⟩⟩

/-- The object `save` writes for an entry is read back by `load` as that entry. -/
theorem entry_of_json_entry_to_json (e : DatabaseEntry) :
    entry_of_json (Database.entry_to_json e) = .ok e := by
  simp [entry_of_json, Database.entry_to_json, Json.lookup]

/-- The loop of `load` over the objects `save` writes appends the entries in order. -/
theorem load_entries_map (es acc : List DatabaseEntry) :
    load_entries (es.map Database.entry_to_json) acc = .ok (acc ++ es) := by
  induction es generalizing acc with
  | nil => simp [load_entries]
  | cons e rest ih =>
    simp [load_entries, entry_of_json_entry_to_json, ih]

/-- `load` on the file `save` wrote gives the saved table, whatever the table in memory. -/
theorem load_saved (db : Database) (stale : List DatabaseEntry) :
    Database.load { file := (Database.save db).file, entries_ := stale } =
      .ok { file := (Database.save db).file, entries_ := db.entries_ } := by
  simp [Database.load, Database.save, Json.users, Json.lookup, Json.items, load_entries_map]

/-- A database that was just saved loads to itself. -/
theorem load_save (db : Database) : (Database.save db).load = .ok (Database.save db) :=
  load_saved db db.entries_

/-- C16: for every list of entries E (and whatever was on disk or in memory before), `save`
writes the document with the one member `users`, an array with one object per entry in
order, each with the members `password_hash` and `username`; `load` applied to that
document, from any table in memory, yields exactly E. -/
theorem C16_save_load_roundtrip (E stale : List DatabaseEntry) (old : DbFile) :
    (Database.save { file := old, entries_ := E }).file =
        .doc (.obj [("users", .arr (E.map (fun e =>
          .obj [("password_hash", .str e.password_hash), ("username", .str e.username)])))]) ∧
      Database.load { file := (Database.save { file := old, entries_ := E }).file,
                      entries_ := stale } =
        .ok { file := (Database.save { file := old, entries_ := E }).file, entries_ := E } :=
  ⟨rfl, load_saved { file := old, entries_ := E } stale⟩

/-- The plain sample hash verifies exactly the password it was computed from. -/
theorem sodium_plain_exact (p q : String) :
    sodium_plain.verify_password p (sodium_plain.hash_password q) = true ↔ p = q := by
  simp only [sodium_plain, beq_iff_eq, String.ext_iff, String.data_append]
  constructor
  · intro h
    exact (List.append_cancel_left h).symm
  · intro h
    rw [h]

/-- C14 (counterexample): the store holds alice with the password old; after
`add_user(alice, new)` the call `validate_user(alice, old)` still returns true, although
old differs from new and the hash verifies exactly the password it was computed from. -/
theorem C14_counterexample_old_password :
    (∀ p q, sodium_plain.verify_password p (sodium_plain.hash_password q) = true ↔ p = q) ∧
      "old" ≠ "new" ∧
      (database_old.add_user sodium_plain "alice" "new").toOption.map
          (fun db => (db.validate_user sodium_plain "alice" "old").toOption.map Prod.fst) =
        some (some true) :=
  ⟨sodium_plain_exact, by decide, by decide⟩

/-- C14 (amended): when the hash verifies exactly the password it was computed from, the
users file loads, and no entry for U in the loaded table verifies P' (for instance U is not
in the store), then `add_user(U, P)` returns, and afterwards `validate_user(U, P)` returns
true and, for P' different from P, `validate_user(U, P')` returns false. -/
theorem C14_add_then_validate (na : Sodium) (db db1 : Database) (U P P' : String)
    (hv : ∀ p q, na.verify_password p (na.hash_password q) = true ↔ p = q)
    (hload : db.load = .ok db1) (hne : P' ≠ P)
    (hold : ∀ e ∈ db1.entries_, e.username = U →
      na.verify_password P' e.password_hash = false) :
    ∃ db2, db.add_user na U P = .ok db2 ∧
      db2.validate_user na U P = .ok (true, db2) ∧
      db2.validate_user na U P' = .ok (false, db2) := by
  refine ⟨_, add_user_eq na U P hload, ?_, ?_⟩
  · rw [validate_user_eq na U P (load_save _)]
    simp [Database.save, (hv P P).2 rfl]
  · rw [validate_user_eq na U P' (load_save _)]
    have hnew : na.verify_password P' (na.hash_password P) = false := by
      cases hc : na.verify_password P' (na.hash_password P) with
      | false => rfl
      | true => exact absurd ((hv P' P).1 hc) hne
    have hall := any_valid_false hold
    simp [Database.save, hnew, hall]

/-- C14 (amended) at the empty store, alice, and the passwords secret and other. -/
theorem C14_add_then_validate_witness :
    (∀ p q, sodium_plain.verify_password p (sodium_plain.hash_password q) = true ↔ p = q) ∧
      (Database.create .absent).load = .ok (Database.create .absent) ∧ "other" ≠ "secret" ∧
      ∃ db2, (Database.create .absent).add_user sodium_plain "alice" "secret" = .ok db2 ∧
        db2.validate_user sodium_plain "alice" "secret" = .ok (true, db2) ∧
        db2.validate_user sodium_plain "alice" "other" = .ok (false, db2) :=
  ⟨sodium_plain_exact, rfl, by decide,
   C14_add_then_validate sodium_plain (Database.create .absent) (Database.create .absent)
     "alice" "secret" "other" sodium_plain_exact rfl (by decide)
     (by intro e he; cases he)⟩

/-- C15 (counterexample): two `add_user` calls for alice on an empty store leave two entries
with the username alice. -/
theorem C15_counterexample_same_name_twice :
    (Database.add_users sodium_plain (Database.create .absent)
        [("alice", "one"), ("alice", "two")]).toOption.map
        (fun db => db.entries_.map (fun e => e.username)) =
      some ["alice", "alice"] := by
  decide

/-- A sequence of `add_user` calls on a database that was just saved appends one entry per
call, named as the call says, and returns. -/
theorem add_users_names (na : Sodium) (calls : List (String × String)) (db0 : Database) :
    ∃ db, Database.add_users na (Database.save db0) calls = .ok db ∧
      db.entries_.map (fun e => e.username) =
        db0.entries_.map (fun e => e.username) ++ calls.map Prod.fst := by
  induction calls generalizing db0 with
  | nil => exact ⟨_, rfl, by simp [Database.save]⟩
  | cons call rest ih =>
    obtain ⟨username, password⟩ := call
    obtain ⟨db, hdb, hnames⟩ := ih { (Database.save db0) with
      entries_ := (Database.save db0).entries_ ++
        [{ username := username, password_hash := na.hash_password password }] }
    refine ⟨db, ?_, ?_⟩
    · simp only [Database.add_users, add_user_eq na username password (load_save db0)]
      exact hdb
    · rw [hnames]
      simp [Database.save]

/-- C15 (amended): `add_user` appends an entry without looking at the table; after any
sequence of `add_user` calls with pairwise different usernames on an initially empty store
(each call made for a name not yet stored, as `Session::auth` makes it), the table holds
exactly these usernames in order, so no two entries have the same username. -/
theorem C15_distinct_calls_distinct_names (na : Sodium) (old : DbFile)
    (calls : List (String × String)) (h : (calls.map Prod.fst).Nodup) :
    ∃ db, Database.add_users na (Database.create old) calls = .ok db ∧
      db.entries_.map (fun e => e.username) = calls.map Prod.fst ∧
      (db.entries_.map (fun e => e.username)).Nodup := by
  obtain ⟨db, hdb, hnames⟩ := add_users_names na calls { file := old, entries_ := [] }
  refine ⟨db, hdb, ?_, ?_⟩
  · simpa using hnames
  · rw [hnames]
    simpa using h

/-- C15 (amended) at the calls for alice and bob on an empty store. -/
theorem C15_distinct_calls_distinct_names_witness :
    ([("alice", "one"), ("bob", "two")].map Prod.fst).Nodup ∧
      ∃ db, Database.add_users sodium_plain (Database.create .absent)
          [("alice", "one"), ("bob", "two")] = .ok db ∧
        db.entries_.map (fun e => e.username) = [("alice", "one"), ("bob", "two")].map Prod.fst ∧
        (db.entries_.map (fun e => e.username)).Nodup :=
  ⟨by decide,
   C15_distinct_calls_distinct_names sodium_plain .absent [("alice", "one"), ("bob", "two")]
     (by decide)⟩

/-- C17: `from_json(to_json(r))` is `r` for every Request `r` (`size` a `uint32_t`) and
`from_json(to_json(s))` is `s` for every Response `s` (`code` a `uint16_t`). -/
theorem C17_codec_roundtrip (r : Request) (s : Response) (hr : r.size < 4294967296)
    (hs : s.code < 65536) :
    Request.from_json (Request.to_json r) = .ok r ∧
      Response.from_json (Response.to_json s) = .ok s := by
  have h32 : ((r.size : Int) % 4294967296).toNat = r.size := by omega
  have h16 : ((s.code : Int) % 65536).toNat = s.code := by omega
  constructor
  · simp [Request.from_json, Request.to_json, Json.member, Json.lookup, Json.get_string,
      Json.get_unsigned, bind, Except.bind, pure, Except.pure, h32]
  · simp [Response.from_json, Response.to_json, Json.member, Json.lookup, Json.get_string,
      Json.get_unsigned, bind, Except.bind, pure, Except.pure, h16]

/-- C17 at a MOVE request and an ERROR/403 response. -/
theorem C17_codec_roundtrip_witness :
    (request "MOVE" "a" "b").size < 4294967296 ∧ Session.access_denied.code < 65536 ∧
      Request.from_json (Request.to_json (request "MOVE" "a" "b")) =
        .ok (request "MOVE" "a" "b") ∧
      Response.from_json (Response.to_json Session.access_denied) =
        .ok Session.access_denied :=
  ⟨by decide, by decide,
   C17_codec_roundtrip (request "MOVE" "a" "b") Session.access_denied (by decide)
     (by decide)⟩

/-- Four bytes written by `htonl` are read back by `ntohl`. -/
theorem ntohl_htonl (n : Nat) (h : n < 4294967296) : ntohl (htonl n) = n := by
  simp only [ntohl, htonl]
  omega

/-- The bytes `htonl` writes are four bytes. -/
theorem htonl_bytes (n : Nat) : (htonl n).length = 4 ∧ ∀ b ∈ htonl n, b < 256 := by
  refine ⟨rfl, ?_⟩
  intro b hb
  simp only [htonl, List.mem_cons, List.mem_singleton, List.not_mem_nil, or_false] at hb
  omega

/-- A string of `n` letters a is serialized as a quote, `n` bytes 97 and a quote. -/
theorem dump_string_replicate (n : Nat) :
    (dump_string (String.mk (List.replicate n 'a'))).length = n + 2 := by
  have h : ∀ k : Nat,
      ((List.replicate k 'a').flatMap (fun c => dump_char c.toNat)).length = k := by
    intro k
    induction k with
    | zero => rfl
    | succ k ih =>
      rw [List.replicate_succ, List.flatMap_cons, List.length_append, ih]
      have : (dump_char 'a'.toNat).length = 1 := by decide
      omega
  simp only [dump_string, List.length_append, h]
  simp
  omega

/-- The byte length of a serialized response: 38 bytes of braces, quotes, names, colons
and commas besides the four values. -/
theorem dump_response_length (s : Response) :
    (Json.dump (Response.to_json s)).length =
      (dump_int s.code).length + (dump_string s.hash).length +
        (dump_string s.message).length + (dump_string s.status).length + 38 := by
  have h1 : (dump_string "code").length = 6 := by decide
  have h3 : (dump_string "hash").length = 6 := by decide
  have h5 : (dump_string "message").length = 9 := by decide
  have h6 : (dump_string "status").length = 8 := by decide
  simp only [Response.to_json, Json.dump, dump_fields, List.length_append,
    List.length_cons, List.length_nil, List.isEmpty_cons, List.isEmpty_nil, if_true,
    Bool.false_eq_true, if_false, h1, h3, h5, h6]
  omega

/-- The first four bytes `write_response` writes are `htonl` of the body size as a
`uint32_t`. -/
theorem write_response_take (dump : Json → List Nat) (j : Json) :
    (Session.write_response dump j).take 4 = htonl ((dump j).length % 4294967296) :=
  List.take_left' rfl

/-- C18 (counterexample): the serialized body of a response whose message is 4294967296
letters a has 4294967345 bytes, and the four bytes `write_response` puts in front of it
are 0, 0, 0, 49: they decode to 49, not to the byte length of the body. -/
theorem C18_counterexample_4GiB_body :
    (Json.dump (Response.to_json response_4GiB)).length = 4294967345 ∧
      (Session.write_response Json.dump (Response.to_json response_4GiB)).take 4 =
        [0, 0, 0, 49] ∧
      ntohl [0, 0, 0, 49] = 49 := by
  have hlen : (Json.dump (Response.to_json response_4GiB)).length = 4294967345 := by
    have h2 : (dump_int response_4GiB.code).length = 3 := by decide
    have h4 : (dump_string response_4GiB.hash).length = 2 := by decide
    have h7 : (dump_string response_4GiB.status).length = 4 := by decide
    have h8 : (dump_string response_4GiB.message).length = 4294967296 + 2 :=
      dump_string_replicate 4294967296
    rw [dump_response_length, h2, h4, h7, h8]
  refine ⟨hlen, ?_, rfl⟩
  rw [write_response_take, hlen]
  decide

/-- C18 (amended): for every message, `write_response` and `Client::send` write the same
bytes: four bytes followed by the serialized body, so the frame has 4 + byte-length(body)
bytes; the four bytes are the big-endian form of the byte length modulo 2^32, which is the
byte length itself when the body is shorter than 2^32 bytes. -/
theorem C18_frame (dump : Json → List Nat) (j : Json) :
    (Session.write_response dump j).length = 4 + (dump j).length ∧
      (Session.write_response dump j).drop 4 = dump j ∧
      (∀ b ∈ (Session.write_response dump j).take 4, b < 256) ∧
      ntohl ((Session.write_response dump j).take 4) = (dump j).length % 4294967296 ∧
      Client.send dump j = Session.write_response dump j ∧
      ((dump j).length < 4294967296 →
        ntohl ((Session.write_response dump j).take 4) = (dump j).length) := by
  have htake := write_response_take dump j
  refine ⟨?_, List.drop_left' rfl, ?_, ?_, rfl, ?_⟩
  · simp only [Session.write_response, List.length_append, (htonl_bytes _).1]
  · rw [htake]
    exact (htonl_bytes _).2
  · rw [htake]
    exact ntohl_htonl _ (Nat.mod_lt _ (by decide))
  · intro h
    rw [htake, Nat.mod_eq_of_lt h]
    exact ntohl_htonl _ h

/-- C18 (amended) at the response ERROR/403: the body has 66 bytes, the frame 70, and the
four bytes in front decode to 66. -/
theorem C18_frame_witness :
    (Json.dump (Response.to_json Session.access_denied)).length = 66 ∧
      (Session.write_response Json.dump (Response.to_json Session.access_denied)).length =
        4 + (Json.dump (Response.to_json Session.access_denied)).length ∧
      ntohl ((Session.write_response Json.dump
        (Response.to_json Session.access_denied)).take 4) =
          (Json.dump (Response.to_json Session.access_denied)).length :=
  ⟨by decide,
   (C18_frame Json.dump (Response.to_json Session.access_denied)).1,
   (C18_frame Json.dump (Response.to_json Session.access_denied)).2.2.2.2.2 (by decide)⟩

/-- C19 (the code at the failing input): after a header read without error whose four
bytes are 0, `read_body` calls `handle_error`, which only writes a log line, then
`read_header`, which starts a further read on the connection, and then, the branch having
no `return`, starts the read of the empty body as well. When that read completes, the empty
buffer goes to `json::parse`, and a parse failure is an exception. The error branch of the
header read, by contrast, calls `handle_error` and nothing else. -/
theorem C19_zero_length_reads_on :
    ntohl [0, 0, 0, 0] = 0 ∧
      Session.read_header_done false [0, 0, 0, 0] =
        [Act.handle_error, Act.read_header, Act.async_read 0] ∧
      (∀ parse : List Nat → Option Json,
        Session.read_body_done parse false [] =
          match parse [] with
          | none => .error Fault.json_error
          | some j => .ok [Act.handle_request j, Act.read_header]) ∧
      (∀ bytes : List Nat, Session.read_header_done true bytes = [Act.handle_error]) ∧
      ∀ (parse : List Nat → Option Json) (buffer_ : List Nat),
        Session.read_body_done parse true buffer_ = .ok [Act.handle_error] :=
  ⟨rfl, rfl, fun _ => rfl, fun _ => rfl, fun _ _ => rfl⟩

/-- An error answer of `Session::cd` comes with the session unchanged, so current_dir is
what it was. -/
theorem cd_error_keeps {F : Type} (api : StdFs F) (s s' : Session F) (req : Request)
    (out : List Response) (h : Session.cd api s req = .ok (s', out))
    (herr : ∃ r ∈ out, r.status = "ERROR") : s' = s := by
  unfold Session.cd at h
  split at h
  · cases h; rfl
  · split at h
    · cases h; rfl
    · split at h
      · cases h; rfl
      · cases h
        obtain ⟨r, hr, hs⟩ := herr
        simp only [List.mem_singleton] at hr
        subst hr
        exact absurd hs (by decide)

/-- C20 (the code at the failing input): a fresh session of `--root /` on a tree with the
directory `/public/files/docs` handles LOGIN with an empty username and then CD to
`/public/files/docs`. The directory exists and the elements of the normalized user_dir are
a prefix of the elements of its normalized path, yet cd answers ERROR/403 and current_dir
stays `public/files`. (The other half of the claim holds: an ERROR answer of cd leaves
current_dir as it was.) -/
theorem C20_cd_into_subdirectory_denied :
    Session.handle_requests Tree.api session_docs
        [(request "LOGIN" "" "").to_json, (request "CD" "/public/files/docs" "").to_json] =
      .ok ({ session_docs with user_dir_ := "public/files", current_dir_ := "public/files",
                               state_ := SessionSate.READY },
           [{ status := "OK", code := 200,
              message := "No username provided. Operating in public mode.", hash := "" },
            { status := "ERROR", code := 403, message := "Access denied.", hash := "" }]) ∧
      fsutils.is_directory Tree.api tree_docs "/public/files/docs" = true ∧
      Tree.api.elems (fsutils.normalize Tree.api tree_docs "public/files") <+:
        Tree.api.elems (fsutils.normalize Tree.api tree_docs "/public/files/docs") ∧
      ∀ (s s' : Session Tree) (req : Request) (out : List Response),
        Session.cd Tree.api s req = .ok (s', out) → (∃ r ∈ out, r.status = "ERROR") →
          s'.current_dir_ = s.current_dir_ :=
  ⟨rfl, rfl, ⟨["docs"], by decide⟩,
   fun s s' req out h herr => by rw [cd_error_keeps Tree.api s s' req out h herr]⟩

/-- What the pre-check of move and copy tests: whether the second argument is an existing
directory or an existing regular file. The first argument is not looked at. -/
theorem incorrect_paths_eq {F : Type} (api : StdFs F) (fs : F) (req : Request) :
    Session.incorrect_paths api fs req =
      (fsutils.is_directory api fs req.second_argument ||
        fsutils.is_file api fs req.second_argument) := by
  simp [Session.incorrect_paths]

/-- C22 (the code at the failing input): the source `public/files/a.txt` is a regular file
and the destination `public/files/docs` is a directory, so they are neither both
directories nor both regular files; move and copy answer ERROR/412 at the pre-check all the
same. -/
theorem C22_precheck_ignores_source :
    fsutils.is_file Tree.api session_files.fs "public/files/a.txt" = true ∧
      fsutils.is_directory Tree.api session_files.fs "public/files/a.txt" = false ∧
      fsutils.is_directory Tree.api session_files.fs "public/files/docs" = true ∧
      fsutils.is_file Tree.api session_files.fs "public/files/docs" = false ∧
      Session.move Tree.api session_files
          (request "MOVE" "public/files/a.txt" "public/files/docs") =
        .ok (session_files,
             [{ status := "ERROR", code := 412, message := "Incorrect paths.", hash := "" }]) ∧
      Session.copy Tree.api session_files
          (request "COPY" "public/files/a.txt" "public/files/docs") =
        .ok (session_files,
             [{ status := "ERROR", code := 412, message := "Incorrect paths.", hash := "" }]) :=
  ⟨rfl, rfl, rfl, rfl, rfl, rfl⟩

/-- C23: in state READY a move or copy request whose first or second argument is empty is
answered ERROR/400 and the session, with its filesystem, is returned unchanged, whatever
the other argument is. -/
theorem C23_empty_argument {F : Type} (api : StdFs F) (s : Session F) (req : Request)
    (h : s.state_ = SessionSate.READY)
    (he : req.first_argument = "" ∨ req.second_argument = "") :
    Session.move api s req =
        .ok (s, [{ status := "ERROR", code := 400, message := "File path cannot be empty.",
                   hash := "" }]) ∧
      Session.copy api s req =
        .ok (s, [{ status := "ERROR", code := 400, message := "File path cannot be empty.",
                   hash := "" }]) := by
  simp [Session.move, Session.copy, h, he, statuses.ERROR, codes.BAD_REQUEST]

/-- C23 at a move with an empty second argument. -/
theorem C23_empty_argument_witness :
    session_files.state_ = SessionSate.READY ∧
      (request "MOVE" "public/files/a.txt" "").second_argument = "" ∧
      Session.move Tree.api session_files (request "MOVE" "public/files/a.txt" "") =
        .ok (session_files,
             [{ status := "ERROR", code := 400, message := "File path cannot be empty.",
                hash := "" }]) :=
  ⟨rfl, rfl,
   (C23_empty_argument Tree.api session_files (request "MOVE" "public/files/a.txt" "") rfl
     (Or.inr rfl)).1⟩

/-- In state READY, a move or copy request whose destination is an existing directory or an
existing regular file is answered with an ERROR (412 at the pre-check, or 400 when the first
argument is empty), whatever the source is, and the session with its whole filesystem is
returned unchanged. -/
theorem move_copy_onto_directory_or_file {F : Type} (api : StdFs F) (s : Session F)
    (req : Request) (h : s.state_ = SessionSate.READY)
    (hkind : fsutils.is_directory api s.fs req.second_argument = true ∨
      fsutils.is_file api s.fs req.second_argument = true) :
    ∃ r : Response, Session.move api s req = .ok (s, [r]) ∧
      Session.copy api s req = .ok (s, [r]) ∧ r.status = "ERROR" ∧
      (r.code = 412 ∨ r.code = 400) := by
  have hp : Session.incorrect_paths api s.fs req = true := by
    rw [incorrect_paths_eq]
    rcases hkind with hd | hf
    · simp [hd]
    · simp [hf]
  by_cases he : req.first_argument = "" ∨ req.second_argument = ""
  · refine ⟨{ status := "ERROR", code := 400, message := "File path cannot be empty.",
                hash := "" }, ?_, ?_, rfl, Or.inr rfl⟩
    · simp [Session.move, h, he, statuses.ERROR, codes.BAD_REQUEST]
    · simp [Session.copy, h, he, statuses.ERROR, codes.BAD_REQUEST]
  · refine ⟨{ status := "ERROR", code := 412, message := "Incorrect paths.", hash := "" },
      ?_, ?_, rfl, Or.inl rfl⟩
    · simp [Session.move, h, he, hp, statuses.ERROR, codes.PRECONDITION_FAILED]
    · simp [Session.copy, h, he, hp, statuses.ERROR, codes.PRECONDITION_FAILED]

/-- C24 (the code at the failing input): under the root `/srv`, `/public` exists as a FIFO
(neither a directory nor a regular file) and `/srv/ln` is a symbolic link to `/`. After a
login with an empty username, the request MOVE `ln` `/public` passes the pre-check and the
sandbox test, `fsutils::move_file(src, dest, false)` calls `fs::rename` with no test of the
destination, and the answer is OK/200: the FIFO at `/public` is gone and the link is in its
place. The same request as COPY is answered ERROR/500 and changes nothing. On a plain tree,
`move_file` with `overwrite` false replaces the existing regular file `/private/notes.txt`,
where `copy_file` with `overwrite` false refuses. -/
theorem C24_move_replaces_destination :
    fsutils.path_exists Posix.api posix_srv "/public" = true ∧
      fsutils.is_directory Posix.api posix_srv "/public" = false ∧
      fsutils.is_file Posix.api posix_srv "/public" = false ∧
      Session.handle_requests Posix.api session_fifo
          [(request "LOGIN" "" "").to_json, (request "MOVE" "ln" "/public").to_json] =
        .ok ({ session_fifo with
                 user_dir_ := "../public/files", current_dir_ := "../public/files",
                 state_ := SessionSate.READY,
                 fs := { tree := tree_srv, fifos := [], links := [(["public"], [])] } },
             [{ status := "OK", code := 200,
                message := "No username provided. Operating in public mode.", hash := "" },
              { status := "OK", code := 200, message := "File moved.", hash := "" }]) ∧
      Session.handle_requests Posix.api session_fifo
          [(request "LOGIN" "" "").to_json, (request "COPY" "ln" "/public").to_json] =
        .ok ({ session_fifo with
                 user_dir_ := "../public/files", current_dir_ := "../public/files",
                 state_ := SessionSate.READY },
             [{ status := "OK", code := 200,
                message := "No username provided. Operating in public mode.", hash := "" },
              { status := "ERROR", code := 500, message := "Cannot copy files.",
                hash := "" }]) ∧
      fsutils.move_file Tree.api tree_files "public/files/a.txt" "private/notes.txt" false =
        (true, { tree_files with files := [(["private", "notes.txt"], [104, 105])] }) ∧
      fsutils.copy_file Tree.api tree_files "public/files/a.txt" "private/notes.txt" false =
        (false, tree_files) :=
  ⟨rfl, rfl, rfl, rfl, rfl, rfl, rfl⟩

/-- The relative paths the loop of `scan_directory` collects: one per entry that is a
regular file, in the order of the directory iterator. -/
theorem scan_fold_paths {F : Type} (api : StdFs F) (fs : F) (dir : String)
    (entries : List String) (acc files : List FileMetadata)
    (h : entries.foldlM (fsutils.process_entry api fs dir) acc = .ok files) :
    files.map (fun f => f.relative_path) =
      acc.map (fun f => f.relative_path) ++
        (entries.filter (fun e => fsutils.is_file api fs e)).map
          (fun e => api.relative fs e dir) := by
  induction entries generalizing acc with
  | nil =>
    simp only [List.foldlM, pure, Except.pure] at h
    cases h
    simp
  | cons e rest ih =>
    simp only [List.foldlM, bind, Except.bind] at h
    cases hp : fsutils.process_entry api fs dir acc e with
    | error f => rw [hp] at h; cases h
    | ok acc1 =>
      rw [hp] at h
      have h1 := ih acc1 h
      rw [h1]
      unfold fsutils.process_entry at hp
      by_cases hf : fsutils.is_file api fs e = true
      · simp only [hf, if_true] at hp
        split at hp
        · cases hp
          simp [hf, fsutils.relative]
        · cases hp
      · simp only [hf] at hp
        cases hp
        simp [hf]

/-- The message `Session::list` builds from a scan of `dir`: after `init`, the path relative
to `dir` of every regular file among the entries of `dir`, each followed by a newline. -/
theorem file_list_scan {F : Type} (api : StdFs F) (fs : F) (dir init : String)
    (entries : List String) (files : List FileMetadata)
    (hit : api.directory_iterator fs dir = some entries)
    (h : fsutils.scan_directory api fs dir false = .ok files) :
    Session.file_list init files =
      ((entries.filter (fun e => fsutils.is_file api fs e)).map
        (fun e => api.relative fs e dir)).foldl (fun acc p => acc ++ (p ++ "\n")) init := by
  simp only [fsutils.scan_directory, hit, Bool.false_eq_true, if_false] at h
  have hp := scan_fold_paths api fs dir entries [] files h
  simp only [List.map_nil, List.nil_append] at hp
  rw [← hp, List.foldl_map]
  rfl

/-- C25 (counterexample): in the READY session whose current_dir `public/files` holds the
directory `docs` and the regular file `a.txt`, a list request without argument is answered
OK/200 with the message `Current directory: public/files`, newline, `a.txt`, newline: a
heading line comes first and the entry `docs` is not listed. -/
theorem C25_counterexample_default_listing :
    session_files.state_ = SessionSate.READY ∧
      Tree.api.directory_iterator session_files.fs session_files.current_dir_ =
        some ["public/files/docs", "public/files/a.txt"] ∧
      Session.list Tree.api session_files (request "LIST" "" "") =
        .ok (session_files,
             [{ status := "OK", code := 200,
                message := "Current directory: public/files\na.txt\n", hash := "" }]) :=
  ⟨rfl, rfl, rfl⟩

/-- C25 (amended): in state READY, a list request with a non-empty first_argument is
answered ERROR/400 when the target is not a directory, and ERROR/403 when the target is a
directory that is not contained in user_dir and does not contain it (neither normalized
element sequence is a prefix of the other). For the sandbox root itself as target (a
directory whose normalized form is that of user_dir) the answer is OK/200 with, as message,
the path relative to the target of every regular file directly in the target, each followed
by a newline. With an empty first_argument the target is current_dir and the message is the
line `Current directory: ` with current_dir, followed by the same listing. In every case
the session is returned unchanged. -/
theorem C25_list_policy {F : Type} (api : StdFs F) (s : Session F) (req : Request)
    (h : s.state_ = SessionSate.READY) :
    (req.first_argument ≠ "" → fsutils.is_directory api s.fs req.first_argument = false →
      Session.list api s req =
        .ok (s, [{ status := "ERROR", code := 400, message := "Directory does not exist.",
                   hash := "" }])) ∧
    (req.first_argument ≠ "" → fsutils.is_directory api s.fs req.first_argument = true →
      ¬ (api.elems (fsutils.normalize api s.fs s.user_dir_) <+:
          api.elems (fsutils.normalize api s.fs req.first_argument)) →
      ¬ (api.elems (fsutils.normalize api s.fs req.first_argument) <+:
          api.elems (fsutils.normalize api s.fs s.user_dir_)) →
      Session.list api s req =
        .ok (s, [{ status := "ERROR", code := 403, message := "Access denied.",
                   hash := "" }])) ∧
    (∀ (entries : List String) (files : List FileMetadata), req.first_argument ≠ "" →
      fsutils.is_directory api s.fs req.first_argument = true →
      fsutils.normalize api s.fs req.first_argument = fsutils.normalize api s.fs s.user_dir_ →
      api.directory_iterator s.fs req.first_argument = some entries →
      fsutils.scan_directory api s.fs req.first_argument false = .ok files →
      Session.list api s req =
        .ok (s, [{ status := "OK", code := 200,
                   message := ((entries.filter (fun e => fsutils.is_file api s.fs e)).map
                     (fun e => api.relative s.fs e req.first_argument)).foldl
                       (fun acc p => acc ++ (p ++ "\n")) "",
                   hash := "" }])) ∧
    (∀ (entries : List String) (files : List FileMetadata), req.first_argument = "" →
      api.directory_iterator s.fs s.current_dir_ = some entries →
      fsutils.scan_directory api s.fs s.current_dir_ false = .ok files →
      Session.list api s req =
        .ok (s, [{ status := "OK", code := 200,
                   message := ((entries.filter (fun e => fsutils.is_file api s.fs e)).map
                     (fun e => api.relative s.fs e s.current_dir_)).foldl
                       (fun acc p => acc ++ (p ++ "\n"))
                       ("Current directory: " ++ s.current_dir_ ++ "\n"),
                   hash := "" }])) := by
  refine ⟨?_, ?_, ?_, ?_⟩
  · intro hne hd
    simp [Session.list, h, hne, hd, statuses.ERROR, codes.BAD_REQUEST]
  · intro hne hd _ hanc
    have hsub : fsutils.is_subpath api s.fs s.user_dir_ req.first_argument = false := by
      rw [← Bool.not_eq_true, is_subpath_iff]
      exact hanc
    simp [Session.list, h, hne, hd, hsub, Session.access_denied, statuses.ERROR,
      codes.FORBIDDEN]
  · intro entries files hne hd hn hit hscan
    have hsub : fsutils.is_subpath api s.fs s.user_dir_ req.first_argument = true := by
      rw [is_subpath_iff, hn]
    simp [Session.list, h, hne, hd, hsub, hscan, statuses.OK, codes.OK,
      file_list_scan api s.fs req.first_argument "" entries files hit hscan]
  · intro entries files he hit hscan
    simp [Session.list, h, he, hscan, statuses.OK, codes.OK,
      file_list_scan api s.fs s.current_dir_ _ entries files hit hscan]

/-- C25 (amended) at three requests: the listing of the sandbox root `public/files` given as
argument has the message `a.txt` and a newline; the listing of `/private`, neither inside
the sandbox nor above it, is answered ERROR/403; the listing of the missing `/nowhere` is
answered ERROR/400. -/
theorem C25_list_policy_witness :
    session_files.state_ = SessionSate.READY ∧
      Session.list Tree.api session_files (request "LIST" "public/files" "") =
        .ok (session_files,
             [{ status := "OK", code := 200, message := "a.txt\n", hash := "" }]) ∧
      Session.list Tree.api session_files (request "LIST" "/private" "") =
        .ok (session_files,
             [{ status := "ERROR", code := 403, message := "Access denied.", hash := "" }]) ∧
      Session.list Tree.api session_files (request "LIST" "/nowhere" "") =
        .ok (session_files,
             [{ status := "ERROR", code := 400, message := "Directory does not exist.",
                hash := "" }]) :=
  ⟨rfl,
   (C25_list_policy Tree.api session_files (request "LIST" "public/files" "") rfl).2.2.1
     ["public/files/docs", "public/files/a.txt"]
     [{ relative_path := "a.txt", size := 2, last_modified := 0, hash := [104, 105] }]
     (by decide) rfl rfl rfl rfl,
   (C25_list_policy Tree.api session_files (request "LIST" "/private" "") rfl).2.1
     (by decide) rfl (by rw [← is_subpath_loop_iff]; decide)
     (by rw [← is_subpath_loop_iff]; decide),
   (C25_list_policy Tree.api session_files (request "LIST" "/nowhere" "") rfl).1
     (by decide) rfl⟩

/-- C26: for every client state and every received response (a JSON value that decodes),
`handle_response` sends nothing and sets the state from the status alone: AUTH gives AUTH,
NEED_INPUT gives NEED_INPUT, OK and ERROR give READY, BUSY gives PROCESSING, CONFLICT (as
every other status) leaves the state unchanged. -/
theorem C26_client_mirror (c : Client) (j : Json) (res : Response)
    (hj : Response.from_json j = .ok res) :
    ∃ (c' : Client) (printed : List String),
      Client.handle_response c j = .ok (c', [], printed) ∧
      c'.state_ =
        (if res.status = "AUTH" then ClientState.AUTH
         else if res.status = "NEED_INPUT" then ClientState.NEED_INPUT
         else if res.status = "OK" ∨ res.status = "ERROR" then ClientState.READY
         else if res.status = "BUSY" then ClientState.PROCESSING
         else c.state_) ∧
      (res.status = "CONFLICT" → c' = c) := by
  unfold Client.handle_response
  simp only [hj, statuses.AUTH, statuses.NEED_INPUT, statuses.ERROR, statuses.OK,
    statuses.CONFLICT, statuses.BUSY]
  by_cases h1 : res.status = "AUTH"
  · simp [h1]
  by_cases h2 : res.status = "NEED_INPUT"
  · simp [h2]
  by_cases h3 : res.status = "ERROR"
  · simp [h3]
  by_cases h4 : res.status = "OK"
  · simp [h4]
  by_cases h5 : res.status = "CONFLICT"
  · simp [h5]
  by_cases h6 : res.status = "BUSY"
  · simp [h6]
  · simp [h1, h2, h3, h4, h5, h6]

/-- C26 at a client in state READY that receives the response BUSY. -/
theorem C26_client_mirror_witness :
    Response.from_json (Response.to_json
        { status := "BUSY", code := 202, message := "", hash := "" }) =
      .ok { status := "BUSY", code := 202, message := "", hash := "" } ∧
      Client.handle_response client_ready (Response.to_json
          { status := "BUSY", code := 202, message := "", hash := "" }) =
        .ok ({ client_ready with state_ := ClientState.PROCESSING }, [],
             ["Server is busy.\n"]) ∧
      ∃ (c' : Client) (printed : List String),
        Client.handle_response client_ready (Response.to_json
            { status := "BUSY", code := 202, message := "", hash := "" }) =
          .ok (c', [], printed) ∧
        c'.state_ =
          (if "BUSY" = "AUTH" then ClientState.AUTH
           else if "BUSY" = "NEED_INPUT" then ClientState.NEED_INPUT
           else if "BUSY" = "OK" ∨ "BUSY" = "ERROR" then ClientState.READY
           else if "BUSY" = "BUSY" then ClientState.PROCESSING
           else client_ready.state_) ∧
        ("BUSY" = "CONFLICT" → c' = client_ready) :=
  ⟨rfl, rfl,
   C26_client_mirror client_ready
     (Response.to_json { status := "BUSY", code := 202, message := "", hash := "" })
     { status := "BUSY", code := 202, message := "", hash := "" } rfl⟩

/-- C27 (the code at the failing input): the server starts on a root directory in which
`users.json` already exists. `setup_root_directory` leaves `db_` null, the session made for
a connection holds the null handle, and its login for the username alice dereferences it.
On a root directory without `users.json` the handle is set and the same login is answered
NEED_INPUT/401. -/
theorem C27_db_null_when_users_file_exists :
    fsutils.is_file Tree.api tree_users "/srv/users.json" = true ∧
      (Server.start Tree.api (Server.create "/srv" tree_users)).toOption.map
          (fun r => (r.1.db_.isNone, r.2.db_.isNone)) = some (true, true) ∧
      (Server.start Tree.api (Server.create "/srv" tree_users) >>= fun r =>
          Session.handle_request Tree.api r.2 (request "LOGIN" "alice" "").to_json) =
        .error Fault.null_handle ∧
      (Server.start Tree.api (Server.create "/srv" tree_first)).toOption.map
          (fun r => (r.1.db_.isSome, r.2.db_.isSome, r.2.fs)) =
        some (true, true, tree_users) ∧
      ((Server.start Tree.api (Server.create "/srv" tree_first) >>= fun r =>
          Session.handle_request Tree.api r.2 (request "LOGIN" "alice" "").to_json).toOption.map
          (fun r => (r.1.state_, r.2.map (fun res => (res.status, res.code))))) =
        some (SessionSate.NEED_INPUT_REGISTER, [("NEED_INPUT", 401)]) :=
  ⟨rfl, rfl, rfl, rfl, rfl⟩

/-- C29 (the code at the failing input): in state READY the line `DELETE a.txt` sends a
request whose cmd is LIST, and the line `DOWNLOAD r.txt l.txt` sends a request whose cmd is
UPLOAD; the other eight senders send their own command. -/
theorem C29_delete_sends_list :
    Client.handle_request client_ready "DELETE a.txt" =
        ({ client_ready with state_ := ClientState.PROCESSING },
         [{ cmd := "LIST", first_argument := "a.txt", second_argument := "", size := 0,
            hash := "" }], []) ∧
      Client.handle_request client_ready "DOWNLOAD r.txt l.txt" =
        ({ client_ready with state_ := ClientState.PROCESSING },
         [{ cmd := "UPLOAD", first_argument := "r.txt", second_argument := "l.txt", size := 0,
            hash := "" }], []) ∧
      ["LIST", "UPLOAD", "CD a", "MKDIR a", "RMDIR a", "MOVE a b", "COPY a b",
          "SYNC a b"].map
          (fun line => ((Client.handle_request client_ready line).2.1.map
            (fun req => req.cmd))) =
        [["LIST"], [], ["CD"], ["MKDIR"], ["RMDIR"], ["MOVE"], ["COPY"], ["SYNC"]] ∧
      (Client.handle_request client_ready "UPLOAD a").2.1.map (fun req => req.cmd) =
        ["UPLOAD"] := by
  decide

/-- C30: in client state NEED_INPUT, `handle_request` on a line other than EXIT sends no
request, prints nothing and leaves the client, hence its state NEED_INPUT, as it is. -/
theorem C30_need_input_line_ignored (c : Client) (line : String)
    (h : c.state_ = ClientState.NEED_INPUT) (hline : line ≠ "EXIT") :
    Client.handle_request c line = (c, [], []) := by
  simp [Client.handle_request, h, hline, commands.EXIT]

/-- C30 at the line Y, the answer the server waits for. -/
theorem C30_need_input_line_ignored_witness :
    ({ client_ready with state_ := ClientState.NEED_INPUT } : Client).state_ =
        ClientState.NEED_INPUT ∧ "Y" ≠ "EXIT" ∧
      Client.handle_request { client_ready with state_ := ClientState.NEED_INPUT } "Y" =
        ({ client_ready with state_ := ClientState.NEED_INPUT }, [], []) :=
  ⟨rfl, by decide,
   C30_need_input_line_ignored { client_ready with state_ := ClientState.NEED_INPUT } "Y" rfl
     (by decide)⟩

/-- Reading a path up to a separator and reading the rest give the names of both parts. -/
theorem names_aux_append (a b cur : List Char) :
    names_aux (a ++ '/' :: b) cur = names_aux a cur ++ names_aux b [] := by
  induction a generalizing cur with
  | nil => simp [names_aux]
  | cons c cs ih =>
    by_cases hc : c = '/'
    · simp [names_aux, hc, ih]
    · simp [names_aux, hc, ih]

/-- A text without separator is one name. -/
theorem names_aux_plain (b cur : List Char) (h : '/' ∉ b) :
    names_aux b cur = [String.mk (cur.reverse ++ b)] := by
  induction b generalizing cur with
  | nil => simp [names_aux]
  | cons c cs ih =>
    have hc : c ≠ '/' := fun hc => h (by simp [hc])
    have hcs : '/' ∉ cs := fun hcs => h (by simp [hcs])
    simp [names_aux, hc, ih _ hcs]

/-- The function `resolve` unfolded. -/
theorem resolve_eq (cwd : List String) (p : String) :
    resolve cwd p = (names p).foldl
      (fun acc n => if n = "" ∨ n = "." then acc else if n = ".." then acc.dropLast else acc ++ [n])
      (if is_absolute p then [] else cwd) := rfl

/-- Appending a plain name (not empty, without separator, neither dot nor dot-dot) to a
path appends that name to the location the path denotes. -/
theorem resolve_append_plain (cwd : List String) (p u : String) (hu : u ≠ "")
    (hs : '/' ∉ u.data) (hd : u ≠ ".") (hdd : u ≠ "..") :
    resolve cwd (path_append p u) = resolve cwd p ++ [u] := by
  have hab : is_absolute u = false := by
    unfold is_absolute
    cases hdata : u.data with
    | nil => rfl
    | cons c cs =>
      have hc : c ≠ '/' := fun hc => hs (by simp [hdata, hc])
      simp [hc]
  have hnu : names u = [u] := by
    simp [names, names_aux_plain _ _ hs]
  have hstep : ∀ acc : List String,
      (if u = "" ∨ u = "." then acc else if u = ".." then acc.dropLast else acc ++ [u]) =
        acc ++ [u] := by
    intro acc
    simp [hu, hd, hdd]
  by_cases hf : has_filename p = true
  · have hne : p.data ≠ [] := by
      intro he
      simp [has_filename, he] at hf
    have habs : is_absolute (p ++ "/" ++ u) = is_absolute p := by
      unfold is_absolute
      cases hp : p.data with
      | nil => exact absurd hp hne
      | cons c cs => simp [String.data_append, hp]
    have hnames : names (p ++ "/" ++ u) = names p ++ [u] := by
      have : (p ++ "/" ++ u).data = p.data ++ '/' :: u.data := by
        simp [String.data_append]
      rw [names, this, names_aux_append, ← names, ← names, hnu]
    simp only [path_append, hab, hf, Bool.false_eq_true, if_false, if_true]
    rw [resolve_eq, resolve_eq, habs, hnames, List.foldl_append]
    simp only [List.foldl_cons, List.foldl_nil]
    exact hstep _
  · simp only [path_append, hab, hf, Bool.false_eq_true, if_false]
    cases hp : p.data.getLast? with
    | none =>
      have he : p.data = [] := List.getLast?_eq_none_iff.mp hp
      have hpe : p = "" := String.ext he
      subst hpe
      have : ("" : String) ++ u = u := by
        apply String.ext
        simp [String.data_append]
      rw [this, resolve_eq, resolve_eq, hab, hnu]
      simp only [List.foldl_cons, List.foldl_nil]
      rw [hstep]
      rfl
    | some c =>
      have hc : c = '/' := by
        simp only [has_filename, hp] at hf
        simpa using hf
      subst hc
      obtain ⟨q, hq⟩ : ∃ q, p.data = q ++ ['/'] := by
        have := List.getLast?_eq_some_iff.mp hp
        exact this
      have habs : is_absolute (p ++ u) = is_absolute p := by
        unfold is_absolute
        cases hpd : p.data with
        | nil => simp [hpd] at hq
        | cons c cs => simp [String.data_append, hpd]
      have hn1 : names (p ++ u) = names_aux q [] ++ [u] := by
        have : (p ++ u).data = q ++ '/' :: u.data := by
          simp [String.data_append, hq]
        have hnu' : names_aux u.data [] = [u] := hnu
        rw [names, this, names_aux_append, hnu']
      have hn2 : names p = names_aux q [] ++ [""] := by
        rw [names, hq]
        have : q ++ ['/'] = q ++ '/' :: [] := rfl
        rw [this, names_aux_append]
        rfl
      rw [resolve_eq, resolve_eq, habs, hn1, hn2, List.foldl_append, List.foldl_append]
      simp only [List.foldl_cons, List.foldl_nil]
      rw [hstep]
      simp


/-- The non-empty initial parts of a list are prefixes of it. -/
theorem mem_inits_tail {d ns : List String} (h : d ∈ (List.inits ns).tail) :
    d <+: ns ∧ d ≠ [] := by
  cases ns with
  | nil => simp at h
  | cons a l =>
    simp only [List.inits_cons, List.tail_cons, List.mem_map] at h
    obtain ⟨x, hx, rfl⟩ := h
    refine ⟨?_, by simp⟩
    rw [ List.cons_prefix_cons]
    exact ⟨rfl, (List.mem_inits _ _).mp hx⟩

/-- A `fsutils::mkdir` on a tree keeps the working directory, and every directory it adds is
a non-empty initial part of the location of its argument. -/
theorem mkdir_dirs {t t' : Tree} {p : String} (h : Session.mkdir_ Tree.api t p = .ok t') :
    t'.cwd = t.cwd ∧
      ∀ d ∈ t'.dirs, d ∈ t.dirs ∨ (d <+: resolve t.cwd p ∧ d ≠ []) := by
  simp only [Session.mkdir_, fsutils.mkdir, Tree.api, Tree.create_directories] at h
  split at h
  · cases h
  · rename_i created fs1 heq
    cases h
    split at heq
    · cases heq
    · split at heq
      · cases heq
      · split at heq
        · simp only [orThrow, Except.ok.injEq, Prod.mk.injEq] at heq
          obtain ⟨_, rfl⟩ := heq
          exact ⟨rfl, fun d hd => Or.inl hd⟩
        · simp only [orThrow, Except.ok.injEq, Prod.mk.injEq] at heq
          obtain ⟨_, rfl⟩ := heq
          refine ⟨rfl, fun d hd => ?_⟩
          simp only [List.mem_append, List.mem_filter] at hd
          rcases hd with hd | ⟨hd, _⟩
          · exact Or.inl hd
          · exact Or.inr (mem_inits_tail hd)


/-- A `fsutils::mkdir` of a path below `P` keeps the directories inside `P`, when the
non-empty initial parts of `P` are directories of the tree `t` one started from. -/
theorem mkdir_confined {t t1 t2 : Tree} {P suffix : List String} {X : String}
    (hanc : ∀ d : List String, d <+: P → d ≠ [] → d ∈ t.dirs)
    (hcwd : t1.cwd = t.cwd) (hQ : ∀ d ∈ t1.dirs, d ∈ t.dirs ∨ P <+: d)
    (hX : resolve t.cwd X = P ++ suffix) (hmk : Session.mkdir_ Tree.api t1 X = .ok t2) :
    t2.cwd = t.cwd ∧ ∀ d ∈ t2.dirs, d ∈ t.dirs ∨ P <+: d := by
  obtain ⟨h1, h2⟩ := mkdir_dirs hmk
  refine ⟨h1.trans hcwd, fun d hd => ?_⟩
  rcases h2 d hd with hold | ⟨hpre, hne⟩
  · exact hQ d hold
  · rw [hcwd, hX] at hpre
    rcases List.prefix_or_prefix_of_prefix hpre ( List.prefix_append P suffix) with hdP | hPd
    · exact Or.inl (hanc d hdP hne)
    · exact Or.inr hPd

/-- The provisioning of `setup_dir` for a plain username adds directories only below the
location of `root_ / "private"`, when that location and its parents are directories. -/
theorem setup_dir_fs_confined (t t' : Tree) (root u : String) (hu : u ≠ "")
    (hs : '/' ∉ u.data) (hd : u ≠ ".") (hdd : u ≠ "..")
    (hanc : ∀ d : List String, d <+: resolve t.cwd (path_append root "private") → d ≠ [] →
      d ∈ t.dirs)
    (h : Session.setup_dir_fs Tree.api t root u = .ok t') :
    ∀ d ∈ t'.dirs, d ∈ t.dirs ∨ resolve t.cwd (path_append root "private") <+: d := by
  have hhome := resolve_append_plain t.cwd (path_append root "private") u hu hs hd hdd
  have hfiles := resolve_append_plain t.cwd (path_append (path_append root "private") u)
    "files" (by decide) (by decide) (by decide) (by decide)
  have hpart := resolve_append_plain t.cwd (path_append (path_append root "private") u)
    ".partial" (by decide) (by decide) (by decide) (by decide)
  rw [hhome, List.append_assoc] at hfiles hpart
  have h0 : t.cwd = t.cwd ∧ ∀ d ∈ t.dirs, d ∈ t.dirs ∨
      resolve t.cwd (path_append root "private") <+: d := ⟨rfl, fun d hd => Or.inl hd⟩
  simp only [Session.setup_dir_fs] at h
  split at h
  · split at h
    · cases h
    · rename_i fs1 hfs1
      have h1 : fs1.cwd = t.cwd ∧ ∀ d ∈ fs1.dirs, d ∈ t.dirs ∨
          resolve t.cwd (path_append root "private") <+: d := by
        split at hfs1
        · exact mkdir_confined hanc h0.1 h0.2 hfiles hfs1
        · cases hfs1
          exact h0
      split at h
      · exact (mkdir_confined hanc h1.1 h1.2 hpart h).2
      · cases h
        exact h1.2
  · split at h
    · cases h
    · rename_i fs1 hfs1
      have h1 := mkdir_confined hanc h0.1 h0.2 hhome hfs1
      split at h
      · cases h
      · rename_i fs2 hfs2
        have h2 := mkdir_confined hanc h1.1 h1.2 hfiles hfs2
        exact (mkdir_confined hanc h2.1 h2.2 hpart h).2

/-- C28 (counterexample): login accepts the username `../evil` (it asks for registration),
and the registration with that username creates `/srv/evil`, `/srv/evil/files` and
`/srv/evil/.partial`, which do not lie inside `/srv/private`. -/
theorem C28_counterexample_dotdot_username :
    (Session.login Tree.api session_srv (request "LOGIN" "../evil" "")).toOption.map
        (fun r => (r.1.username_, r.1.state_, r.2.map (fun res => res.code))) =
      some ("../evil", SessionSate.NEED_INPUT_REGISTER, [401]) ∧
      (Session.auth Tree.api sodium_plain session_evil (request "AUTH" "pw" "")).toOption.map
          (fun r => (r.1.state_, r.1.fs.dirs, r.2.map (fun res => res.code))) =
        some (SessionSate.READY,
              [["srv"], ["srv", "public"], ["srv", "public", "files"], ["srv", "private"],
               ["srv", "evil"], ["srv", "evil", "files"], ["srv", "evil", ".partial"]],
              [200]) ∧
      resolve tree_srv.cwd (path_append "/srv" "private") = ["srv", "private"] ∧
      ¬ (["srv", "private"] <+: ["srv", "evil"]) := by
  refine ⟨by decide, by decide, by decide, ?_⟩
  rw [← is_subpath_loop_iff]
  decide

/-- C28 (amended): for a plain username (not empty, without `/`, neither `.` nor `..`) the
three directories `setup_dir` provisions are `<root>/private/<username>` and its children
`files` and `.partial`; on a tree where `<root>/private` and its parents are directories,
every directory that exists after the provisioning either existed before or lies inside
`<root>/private`. (A username with `/` or `..` is used as it is given.) -/
theorem C28_plain_username_confined (t t' : Tree) (root u : String) (hu : u ≠ "")
    (hs : '/' ∉ u.data) (hd : u ≠ ".") (hdd : u ≠ "..")
    (hanc : ∀ d : List String, d <+: resolve t.cwd (path_append root "private") → d ≠ [] →
      d ∈ t.dirs)
    (h : Session.setup_dir_fs Tree.api t root u = .ok t') :
    resolve t.cwd (path_append (path_append root "private") u) =
        resolve t.cwd (path_append root "private") ++ [u] ∧
      resolve t.cwd (path_append (path_append (path_append root "private") u) "files") =
        resolve t.cwd (path_append root "private") ++ [u, "files"] ∧
      resolve t.cwd (path_append (path_append (path_append root "private") u) ".partial") =
        resolve t.cwd (path_append root "private") ++ [u, ".partial"] ∧
      ∀ d ∈ t'.dirs, d ∈ t.dirs ∨ resolve t.cwd (path_append root "private") <+: d := by
  have hhome := resolve_append_plain t.cwd (path_append root "private") u hu hs hd hdd
  have hfiles := resolve_append_plain t.cwd (path_append (path_append root "private") u)
    "files" (by decide) (by decide) (by decide) (by decide)
  have hpart := resolve_append_plain t.cwd (path_append (path_append root "private") u)
    ".partial" (by decide) (by decide) (by decide) (by decide)
  rw [hhome, List.append_assoc] at hfiles hpart
  exact ⟨hhome, hfiles, hpart, setup_dir_fs_confined t t' root u hu hs hd hdd hanc h⟩

/-- C28 (amended) at the username alice under the root `/srv`. -/
theorem C28_plain_username_confined_witness :
    Session.setup_dir_fs Tree.api tree_srv "/srv" "alice" = .ok tree_srv_alice ∧
      resolve tree_srv.cwd (path_append (path_append "/srv" "private") "alice") =
        resolve tree_srv.cwd (path_append "/srv" "private") ++ ["alice"] ∧
      ∀ d ∈ tree_srv_alice.dirs,
        d ∈ tree_srv.dirs ∨ resolve tree_srv.cwd (path_append "/srv" "private") <+: d :=
  have hw := C28_plain_username_confined tree_srv tree_srv_alice "/srv" "alice" (by decide)
    (by decide) (by decide) (by decide)
    (by
      intro d hpre hne
      have hd : d ∈ List.inits ["srv", "private"] := (List.mem_inits _ _).mpr hpre
      simp only [List.inits, List.map, List.mem_cons, List.mem_singleton] at hd
      rcases hd with rfl | rfl | rfl | hd
      · exact absurd rfl hne
      · decide
      · decide
      · simp at hd)
    rfl
  ⟨rfl, hw.1, hw.2.2.2⟩


end MiniDrive
